import Mathlib

/-!
Shallow embedding of the scratch-card backend (services `license.service.js`,
`scratchcard.service.js`, `user.service.js`) for verification of the
specification's claims.

Modelling conventions:
* Database DECIMAL columns and JavaScript `Number` values are modelled as `ℚ`.
* TEXT primary keys (cuid) are modelled as `Nat`, preserving the database's
  linear order on ids (`orderBy id desc` picks the greatest id).
* A Prisma table is a `List` of rows; `update where id` is a map that rewrites
  the matching row and leaves others unchanged.
* A service call is a function from the database value to
  `Except Err (newDatabase × result)`: a thrown JavaScript error is
  `Except.error`, and in that case no mutation is committed (transaction
  rollback, or throw before any write).
* Reads through the module-level prisma client and reads through an open
  transaction handle `tx` can observe different states under concurrency;
  where the code mixes the two clients, the embedding takes the state seen by
  each client as a separate argument (they coincide in a single-threaded run).
* Presentation-only columns (`image_url`, `description`, timestamps) and their
  URL-format validation are omitted: no claim mentions them, and omitting a
  validation only enlarges the set of accepted inputs.
-/

namespace Backend

/-- The `wallets` row: `balance` is DECIMAL, non-null. -/
structure Wallet where
  id : Nat
  userId : Nat
  balance : ℚ
deriving DecidableEq, Repr

/-- The `users` row (fields used by the game flow). -/
structure User where
  id : Nat
  is_influencer : Bool
  total_scratchs : Nat
  total_wins : Nat
  total_losses : Nat
deriving DecidableEq, Repr

/-- The `prizes` row: `type` is TEXT ("MONEY" or "PRODUCT"), `value`,
`product_name`, `redemption_value` are nullable. -/
structure Prize where
  id : Nat
  scratchCardId : Nat
  name : String
  type : String
  value : Option ℚ
  product_name : Option String
  redemption_value : Option ℚ
  probability : ℚ
  is_active : Bool
deriving DecidableEq, Repr

/-- The `scratch_cards` row; `deleted` models `deleted_at IS NOT NULL`. -/
structure ScratchCard where
  id : Nat
  name : String
  price : ℚ
  target_rtp : ℚ
  current_rtp : ℚ
  total_revenue : ℚ
  total_payouts : ℚ
  total_games_played : Nat
  is_active : Bool
  deleted : Bool
deriving DecidableEq, Repr

/-- The `games.status` values used by the code. -/
inductive GameStatus
  | COMPLETED
  | PENDING_DELIVERY
deriving DecidableEq, Repr

/-- The `games` row; `redemption_choice` is a non-null BOOLEAN defaulting to
`false` (the code overloads it: `false` = undecided or chose product,
`true` = chose money). -/
structure Game where
  id : Nat
  userId : Nat
  scratchCardId : Nat
  prizeId : Option Nat
  is_winner : Bool
  amount_won : ℚ
  prize_type : Option String
  redemption_choice : Bool
  status : GameStatus
deriving DecidableEq, Repr

/-- The `licenses` row: `credits` and `credits_used` are INTEGER, the money
fields are DECIMAL. -/
structure License where
  id : Nat
  credits : Int
  credits_used : Int
  credits_value : ℚ
  ggr_percentage : ℚ
  total_earnings : ℚ
  is_active : Bool
deriving DecidableEq, Repr

/-- The `usage_licenses` row (audit trail appended by credit consumption). -/
structure UsageRecord where
  userId : Nat
  licenseId : Nat
  scratchCardId : Nat
  credits_used : Int
deriving DecidableEq, Repr

/-- The persistent store: one list of rows per table. -/
structure DB where
  users : List User
  wallets : List Wallet
  cards : List ScratchCard
  prizes : List Prize
  games : List Game
  licenses : List License
  usages : List UsageRecord
deriving DecidableEq, Repr

/-- Distinct throw sites / structured failure messages of the services. -/
inductive Err
  | userNotFound
  | walletNotFound
  | cardNotFound
  | licenseUnavailable
  | insufficientFunds
  | noLicense
  | gameNotEligible
  | notPhysicalPrize
  | alreadyRedeemed
  | invalidChoice
  | redemptionValueUnavailable
  | prizeNotFound
  | validationError (msg : String)
deriving DecidableEq, Repr

/-! ## License service (`license.service.js`) -/

/-- The `getCurrentLicense`: `findFirst orderBy id desc` — the row with the
greatest id; throws `Nenhuma licença encontrada` when the table is empty. -/
def getCurrentLicense (ls : List License) : Except Err License :=
  match ls with
  | [] => .error .noLicense
  | l :: rest => .ok (rest.foldl (fun a b => if a.id < b.id then b else a) l)

/-- The `creditsNeeded` as computed inside `hasEnoughCredits`:
`credits_value > 0 ? Math.ceil(amount / credits_value) : 1`. -/
def creditsNeededFor (license : License) (amount : ℚ) : Int :=
  if license.credits_value > 0 then ⌈amount / license.credits_value⌉ else 1

/-- The structured (non-throwing) result object of `hasEnoughCredits`. -/
inductive CreditCheckResult
  | inactive (license : License)
  | insufficient (creditsNeeded : Int) (license : License)
  | enough (creditsNeeded : Int) (license : License)
deriving DecidableEq, Repr

/-- The `success` flag of the returned object. -/
def CreditCheckResult.success : CreditCheckResult → Bool
  | .enough _ _ => true
  | _ => false

/-- The `license` field of the returned object. -/
def CreditCheckResult.license : CreditCheckResult → License
  | .inactive l => l
  | .insufficient _ l => l
  | .enough _ l => l

/-- The `hasEnoughCredits(amount)`: reads the current license (the throw of
`getCurrentLicense` propagates), then fails structurally when the license is
inactive or `credits < creditsNeeded`. -/
def hasEnoughCredits (ls : List License) (amount : ℚ) : Except Err CreditCheckResult := do
  let license ← getCurrentLicense ls
  if license.is_active = false then
    return .inactive license
  let creditsNeeded := creditsNeededFor license amount
  if license.credits < creditsNeeded then
    return .insufficient creditsNeeded license
  return .enough creditsNeeded license

/-- The `update where id = i` on the `licenses` table. -/
def mapLicense (ls : List License) (i : Nat) (f : License → License) : List License :=
  ls.map fun l => if l.id == i then f l else l

/-- Outcome of `consumeCreditsAndAddEarnings`: either the structured failure
object (carrying the failed check) or success carrying the new state of the
`licenses` table as seen by the transaction, the appended usage row, the
credits consumed and the GGR amount. -/
inductive ConsumeResult
  | failure (licenseCheck : CreditCheckResult)
  | success (txLicenses : List License) (usage : UsageRecord)
      (creditsConsumed : Int) (ggrAmount : ℚ)
deriving DecidableEq, Repr

/-- The `success` flag of the returned object. -/
def ConsumeResult.isSuccess : ConsumeResult → Bool
  | .success _ _ _ _ => true
  | .failure _ => false

/-- The `consumeCreditsAndAddEarnings({amount, userId, scratchCardId, tx})`.

The internal `hasEnoughCredits` call goes through the module-level prisma
client (`globalLicenses` is the committed state that client sees; its
`getCurrentLicense` throw propagates, since that call sits outside the
`try`), while the license update and the usage insert go through
`prismaClient = tx || prisma` (`txLicenses` is the state the transaction
handle sees).  On a failed check it writes nothing and returns the
structured failure. -/
def consumeCreditsAndAddEarnings (amount : ℚ) (userId scratchCardId : Nat)
    (globalLicenses txLicenses : List License) : Except Err ConsumeResult := do
  let licenseCheck ← hasEnoughCredits globalLicenses amount
  match licenseCheck with
  | .inactive _ | .insufficient _ _ => return .failure licenseCheck
  | .enough creditsNeeded license =>
    let creditsToConsume := creditsNeeded
    let ggrAmount := amount * (license.ggr_percentage / 100)
    let txLicenses2 := mapLicense txLicenses license.id fun l =>
      { l with
        credits_used := l.credits_used + creditsToConsume,
        credits := l.credits - creditsToConsume,
        total_earnings := l.total_earnings + ggrAmount }
    let usage : UsageRecord :=
      { userId := userId, licenseId := license.id,
        scratchCardId := scratchCardId, credits_used := creditsToConsume }
    return .success txLicenses2 usage creditsToConsume ggrAmount

/-- Result object of `checkLicenseStatus` (catches the empty-table throw and
returns a structured failure). -/
inductive LicenseStatusResult
  | failure (message : Err)
  | status (is_active : Bool) (has_credits : Bool) (credits : Int)
      (credits_used : Int) (credits_value : ℚ) (ggr_percentage : ℚ)
      (total_earnings : ℚ) (license : License)
deriving DecidableEq, Repr

/-- The `checkLicenseStatus`. -/
def checkLicenseStatus (ls : List License) : LicenseStatusResult :=
  match getCurrentLicense ls with
  | .error e => .failure e
  | .ok l =>
      .status l.is_active (decide (l.credits > 0)) l.credits l.credits_used
        l.credits_value l.ggr_percentage l.total_earnings l

/-- The `editCredits(newCredits)`: sets `credits` on the current license. -/
def editCredits (ls : List License) (newCredits : Int) : Except Err (List License) := do
  let lastLicense ← getCurrentLicense ls
  return mapLicense ls lastLicense.id fun l => { l with credits := newCredits }

/-- The `addEarnings(amount)`: increments `total_earnings` on the current license. -/
def addEarnings (ls : List License) (amount : ℚ) : Except Err (List License) := do
  let lastLicense ← getCurrentLicense ls
  return mapLicense ls lastLicense.id fun l =>
    { l with total_earnings := l.total_earnings + amount }

/-- Parameter object of `updateLicenseParams` (`none` = field not provided). -/
structure LicenseParams where
  credits : Option Int
  credits_value : Option ℚ
  ggr_percentage : Option ℚ
  is_active : Option Bool
deriving DecidableEq, Repr

/-- The `updateLicenseParams(params)`: updates the provided fields on the current
license. -/
def updateLicenseParams (ls : List License) (params : LicenseParams) :
    Except Err (List License) := do
  let lastLicense ← getCurrentLicense ls
  return mapLicense ls lastLicense.id fun l =>
    { l with
      credits := params.credits.getD l.credits,
      credits_value := params.credits_value.getD l.credits_value,
      ggr_percentage := params.ggr_percentage.getD l.ggr_percentage,
      is_active := params.is_active.getD l.is_active }

/-! ## Outcome resolver (`determineGameResult` in `scratchcard.service.js`) -/

/-- A scratch card together with the prize rows loaded by the query's
`include: { prizes: { where: { is_active: true } } }`. -/
structure CardWithPrizes where
  card : ScratchCard
  prizes : List Prize
deriving DecidableEq, Repr

/-- The `{ isWinner, prize }` object returned by `determineGameResult`. -/
structure GameResult where
  isWinner : Bool
  prize : Option Prize
deriving DecidableEq, Repr

/-- JavaScript `user && user.is_influencer` (the `user` argument defaults to
`null`). -/
def isInfluencerUser : Option User → Bool
  | some u => u.is_influencer
  | none => false

/-- The `for (const prize of prizes)` loop: accumulate
`probability * multiplier` and return the first prize with
`randomNumber <= cumulativeProbability`. -/
def winsPrize (r mult : ℚ) : List Prize → ℚ → Option Prize
  | [], _ => none
  | prize :: rest, cumulative =>
    let adjustedProbability := prize.probability * mult
    let cumulative2 := cumulative + adjustedProbability
    if r ≤ cumulative2 then some prize else winsPrize r mult rest cumulative2

/-- The `determineGameResult(scratchCard, user)` with the random draw
`r = Math.random() * 100` passed explicitly (the function is otherwise
deterministic). -/
def determineGameResult (scratchCard : CardWithPrizes) (user : Option User)
    (r : ℚ) : GameResult :=
  let prizes := scratchCard.prizes
  if prizes.isEmpty then { isWinner := false, prize := none }
  else
    let rtpMultiplier : ℚ :=
      if scratchCard.card.current_rtp < scratchCard.card.target_rtp then 12/10
      else if scratchCard.card.current_rtp > scratchCard.card.target_rtp then 8/10
      else 1
    let rtpMultiplier2 :=
      if isInfluencerUser user then rtpMultiplier * 6 else rtpMultiplier
    match winsPrize r rtpMultiplier2 prizes 0 with
    | some prize => { isWinner := true, prize := some prize }
    | none => { isWinner := false, prize := none }

/-! Resolver as worded by the specification (§4.1), for the refinement claim:
compute the multiplier, attach to each prize its cumulative sum of
`probability × multiplier`, and return the first prize whose cumulative sum
is `≥ r`; a loss when there are no active prizes or the total stays `< r`. -/

/-- Modelled from the spec: the prize list annotated with cumulative sums of
`probability × multiplier`, in list order. -/
def cumulativeSums (mult : ℚ) : List Prize → ℚ → List (Prize × ℚ)
  | [], _ => []
  | p :: rest, acc =>
    (p, acc + p.probability * mult) :: cumulativeSums mult rest (acc + p.probability * mult)

/-- Modelled from the spec (§4.1): the specified outcome-resolution
algorithm, stated with an explicit cumulative-sum list and a first-match
search. -/
def determineGameResultSpec (prizes : List Prize) (current_rtp target_rtp : ℚ)
    (privileged : Bool) (r : ℚ) : GameResult :=
  if prizes = [] then { isWinner := false, prize := none }
  else
    let base : ℚ :=
      if current_rtp < target_rtp then 12/10
      else if current_rtp > target_rtp then 8/10
      else 1
    let mult := if privileged then base * 6 else base
    match (cumulativeSums mult prizes 0).find? (fun pc => decide (pc.2 ≥ r)) with
    | some pc => { isWinner := true, prize := some pc.1 }
    | none => { isWinner := false, prize := none }

/-! ## Row-update helpers (Prisma `update where id`) -/

/-- The `wallet.update where id` (balance mutation). -/
def mapWallet (ws : List Wallet) (walletId : Nat) (f : ℚ → ℚ) : List Wallet :=
  ws.map fun w => if w.id == walletId then { w with balance := f w.balance } else w

/-- The `scratchCard.update where id`. -/
def mapCard (cs : List ScratchCard) (cardId : Nat) (f : ScratchCard → ScratchCard) :
    List ScratchCard :=
  cs.map fun c => if c.id == cardId then f c else c

/-- The `game.update where id`. -/
def mapGame (gs : List Game) (gameId : Nat) (f : Game → Game) : List Game :=
  gs.map fun g => if g.id == gameId then f g else g

/-- The `user.update where id` for the play-statistics increment. -/
def mapUserStats (us : List User) (userId : Nat) (isWinner : Bool) : List User :=
  us.map fun u =>
    if u.id == userId then
      { u with
        total_scratchs := u.total_scratchs + 1,
        total_wins := if isWinner then u.total_wins + 1 else u.total_wins,
        total_losses := if !isWinner then u.total_losses + 1 else u.total_losses }
    else u

/-! ## Game transaction coordinator (`playScratchCard`) -/

/-- The `user.findUnique where id` -/
def findUser (db : DB) (userId : Nat) : Option User :=
  db.users.find? (fun u => u.id == userId)

/-- The `include: { wallet: true }` relation load (an array in the code). -/
def userWallets (db : DB) (userId : Nat) : List Wallet :=
  db.wallets.filter (fun w => w.userId == userId)

/-- The `scratchCard.findUnique where { id, is_active, deleted_at: null }` with
active prizes included. -/
def findActiveCardWithPrizes (db : DB) (scratchCardId : Nat) : Option CardWithPrizes :=
  match db.cards.find? (fun c => c.id == scratchCardId && c.is_active && !c.deleted) with
  | none => none
  | some card =>
      some { card := card,
             prizes := db.prizes.filter (fun p => p.scratchCardId == card.id && p.is_active) }

/-- The `gameResult.prize && gameResult.prize.type === 'MONEY'`. -/
def prizeIsMoney : Option Prize → Bool
  | some p => p.type == "MONEY"
  | none => false

/-- Step 4.4.f: for non-influencers, re-read the updated totals inside the
transaction and persist `current_rtp = total_payouts / total_revenue * 100`
(`0` when `total_revenue` is not positive); influencers skip this step.  A
failed re-read would crash and abort the transaction. -/
def rtpStep (db : DB) (scratchCardId : Nat) (isInfluencer : Bool) : Except Err DB :=
  if isInfluencer then .ok db
  else
    match db.cards.find? (fun c => c.id == scratchCardId) with
    | none => .error .cardNotFound
    | some updatedStats =>
      let currentRtp : ℚ :=
        if updatedStats.total_revenue > 0 then
          updatedStats.total_payouts / updatedStats.total_revenue * 100
        else 0
      .ok { db with cards := (mapCard db.cards scratchCardId
              (fun c => { c with current_rtp := currentRtp })) }

/-- The `prisma.$transaction` callback of `playScratchCard` (steps a–g of
§4.4.4).  `txdb` is the state the transaction handle sees;
`consumeGlobal` is the committed `licenses` table observed by the
module-level prisma client when `consumeCreditsAndAddEarnings` performs its
internal check (in a single-threaded run it equals `txdb.licenses`).
The result object of the license consumption is not checked by the caller;
only a thrown error (empty license table) aborts the transaction. -/
def playTx (txdb : DB) (userId scratchCardId walletId : Nat) (price : ℚ)
    (gameResult : GameResult) (amountWon : ℚ) (prizeId : Option Nat)
    (prizeType : Option String) (isInfluencer : Bool)
    (consumeGlobal : List License) (newGameId : Nat) : Except Err (DB × Game) := do
  let db1 := { txdb with wallets := mapWallet txdb.wallets walletId (fun b => b - price) }
  let db2 := { db1 with wallets :=
    (if gameResult.isWinner && prizeIsMoney gameResult.prize then
      mapWallet db1.wallets walletId (fun b => b + amountWon)
    else db1.wallets) }
  let game : Game :=
    { id := newGameId, userId := userId, scratchCardId := scratchCardId,
      prizeId := prizeId, is_winner := gameResult.isWinner,
      amount_won := amountWon, prize_type := prizeType,
      redemption_choice := false, status := .COMPLETED }
  let db3 := { db2 with games := db2.games ++ [game] }
  let db4 := { db3 with users := mapUserStats db3.users userId gameResult.isWinner }
  let db5 := { db4 with cards := mapCard db4.cards scratchCardId (fun c =>
      { c with
        total_revenue := c.total_revenue + price,
        total_payouts := c.total_payouts + amountWon,
        total_games_played := c.total_games_played + 1 }) }
  let db6 ← rtpStep db5 scratchCardId isInfluencer
  let res ← consumeCreditsAndAddEarnings price userId scratchCardId consumeGlobal db6.licenses
  let db7 :=
    match res with
    | .success txls usage _ _ =>
        { db6 with licenses := txls, usages := db6.usages ++ [usage] }
    | .failure _ => db6
  return (db7, game)

/-- The `let amountWon` computation before the transaction: the prize value
for a MONEY win, `0` for a PRODUCT win (handled later by redemption) and for
a loss. -/
def amountWonOf (gameResult : GameResult) : ℚ :=
  match gameResult.prize with
  | some p =>
      if gameResult.isWinner then
        if p.type == "MONEY" then p.value.getD 0 else 0
      else 0
  | none => 0

/-- The `let prizeId` computation before the transaction. -/
def prizeIdOf (gameResult : GameResult) : Option Nat :=
  match gameResult.prize with
  | some p => if gameResult.isWinner then some p.id else none
  | none => none

/-- The `let prizeType` computation before the transaction. -/
def prizeTypeOf (gameResult : GameResult) : Option String :=
  match gameResult.prize with
  | some p => if gameResult.isWinner then some p.type else none
  | none => none

/-- The `playScratchCard(userId, scratchCardId)`: pre-transaction fetches and
fast-fail checks, outcome resolution with the pinned draw `r`, then the
atomic transaction.  `newGameId` stands for the generated cuid of the new
game row.  In this single-threaded embedding every read observes `db`. -/
def playScratchCard (db : DB) (r : ℚ) (userId scratchCardId newGameId : Nat) :
    Except Err (DB × Game) :=
  match findUser db userId with
  | none => .error .userNotFound
  | some userWithWallet =>
    match userWallets db userId with
    | [] => .error .walletNotFound
    | wallet :: _ =>
      match findActiveCardWithPrizes db scratchCardId with
      | none => .error .cardNotFound
      | some scratchCardWithPrizes =>
        match hasEnoughCredits db.licenses scratchCardWithPrizes.card.price with
        | .error e => .error e
        | .ok licenseCheck =>
          if !licenseCheck.success then .error .licenseUnavailable
          else if wallet.balance < scratchCardWithPrizes.card.price then
            .error .insufficientFunds
          else
            let gameResult := determineGameResult scratchCardWithPrizes (some userWithWallet) r
            playTx db userId scratchCardId wallet.id scratchCardWithPrizes.card.price
              gameResult (amountWonOf gameResult) (prizeIdOf gameResult)
              (prizeTypeOf gameResult) userWithWallet.is_influencer
              db.licenses newGameId

/-! ## Redemption chooser (`chooseRedemption` in `user.service.js`) -/

/-- The `include: { prize: true }` relation load on a game row. -/
def findPrizeOfGame (db : DB) (game : Game) : Option Prize :=
  match game.prizeId with
  | none => none
  | some pid => db.prizes.find? (fun p => p.id == pid)

/-- The `findFirst` predicate of `chooseRedemption`: the game belongs to the
user, is a win, and is `COMPLETED`. -/
def redeemableGame (userId gameId : Nat) (g : Game) : Bool :=
  g.id == gameId && g.userId == userId && g.is_winner
    && decide (g.status = GameStatus.COMPLETED)

/-- The `chooseRedemption(userId, gameId, choice)` — the whole body runs in one
transaction; any throw rolls back. -/
def chooseRedemption (db : DB) (userId gameId : Nat) (choice : String) :
    Except Err (DB × Game) :=
  match db.games.find? (redeemableGame userId gameId) with
  | none => .error .gameNotEligible
  | some game =>
    match findPrizeOfGame db game with
    | none => .error .notPhysicalPrize
    | some prize =>
      if prize.type != "PRODUCT" then .error .notPhysicalPrize
      else if game.redemption_choice != false then .error .alreadyRedeemed
      else
        match userWallets db userId with
        | [] => .error .walletNotFound
        | wallet :: _ =>
          if choice != "product" && choice != "money" then .error .invalidChoice
          else if choice == "money" then
            let redemptionValue := prize.redemption_value.getD 0
            if redemptionValue ≤ 0 then .error .redemptionValueUnavailable
            else
              let db1 := { db with
                wallets := mapWallet db.wallets wallet.id (fun b => b + redemptionValue) }
              let updatedGame :=
                { game with
                  redemption_choice := true,
                  amount_won := redemptionValue,
                  prize_type := some "REDEMPTION" }
              let db2 := { db1 with games := mapGame db1.games gameId (fun _ => updatedGame) }
              let db3 := { db2 with cards := (mapCard db2.cards game.scratchCardId
                  (fun c => { c with total_payouts := c.total_payouts + redemptionValue })) }
              .ok (db3, updatedGame)
          else
            let updatedGame :=
              { game with
                redemption_choice := false,
                prize_type := some "PRODUCT",
                status := .PENDING_DELIVERY }
            let db1 := { db with games := mapGame db.games gameId (fun _ => updatedGame) }
            .ok (db1, updatedGame)

/-! ## Admin operations and business validations (`scratchcard.service.js`) -/

/-- Input object for a prize (`none` = field absent / undefined). -/
structure PrizeData where
  name : String
  type : String
  value : Option ℚ
  product_name : Option String
  redemption_value : Option ℚ
  probability : ℚ
  is_active : Option Bool
deriving DecidableEq, Repr

/-- Input object for a scratch card. -/
structure ScratchCardData where
  name : String
  description : String
  price : ℚ
  target_rtp : ℚ
  is_active : Option Bool
deriving DecidableEq, Repr

/-- The `validatePrice`: a number in `(0, 1000]`. -/
def validatePrice (price : ℚ) : Except Err Unit :=
  if price ≤ 0 then .error (.validationError "price must be positive")
  else if price > 1000 then .error (.validationError "price above limit")
  else .ok ()

/-- The `validateTargetRtp`: between 50 and 99. -/
def validateTargetRtp (targetRtp : ℚ) : Except Err Unit :=
  if targetRtp < 50 ∨ targetRtp > 99 then .error (.validationError "target rtp range")
  else .ok ()

/-- The `validatePrizeType`: `'MONEY'` or `'PRODUCT'`. -/
def validatePrizeType (type : String) : Except Err Unit :=
  if type == "MONEY" || type == "PRODUCT" then .ok ()
  else .error (.validationError "prize type")

/-- The `validateProbability`: between 0 and 100. -/
def validateProbability (probability : ℚ) : Except Err Unit :=
  if probability < 0 ∨ probability > 100 then .error (.validationError "probability range")
  else .ok ()

/-- The `validatePrizeData`: name of length ≥ 2, valid type and probability,
and the type-specific value requirements.  (The URL check on the optional
image is omitted with that field, and the whitespace trimming before the
length checks is omitted: it only affects whitespace-padded names, which no
claim involves.) -/
def validatePrizeData (prize : PrizeData) : Except Err Unit :=
  if prize.name.length < 2 then
    .error (.validationError "prize name too short")
  else
    match validatePrizeType prize.type with
    | .error e => .error e
    | .ok _ =>
      match validateProbability prize.probability with
      | .error e => .error e
      | .ok _ =>
        if prize.type == "MONEY" then
          if prize.value.getD 0 ≤ 0 then
            .error (.validationError "money prize needs positive value")
          else .ok ()
        else if prize.type == "PRODUCT" then
          if (prize.product_name.getD "").length < 2 then
            .error (.validationError "product prize needs product name")
          else if prize.redemption_value.getD 0 ≤ 0 then
            .error (.validationError "product prize needs positive redemption value")
          else .ok ()
        else .ok ()

/-- The per-element validation pass of the `for` loop in
`validatePrizesData`. -/
def validatePrizeList : List PrizeData → Except Err Unit
  | [] => .ok ()
  | p :: rest => do
    validatePrizeData p
    validatePrizeList rest

/-- The `validatePrizesData`: non-empty, at most 20 prizes, each valid, and the
summed probabilities (over the whole provided list) at most 100. -/
def validatePrizesData (prizes : List PrizeData) : Except Err Unit :=
  if prizes = [] then .error (.validationError "at least one prize")
  else if prizes.length > 20 then .error (.validationError "at most 20 prizes")
  else
    match validatePrizeList prizes with
    | .error e => .error e
    | .ok _ =>
      if (prizes.map (fun p => p.probability)).sum > 100 then
        .error (.validationError "probability sum above 100")
      else .ok ()

/-- The `validateScratchCardData` (URL check on the image omitted, whitespace
trimming omitted as in `validatePrizeData`). -/
def validateScratchCardData (data : ScratchCardData) : Except Err Unit :=
  if data.name.length < 3 then .error (.validationError "card name too short")
  else if data.description.length < 10 then
    .error (.validationError "card description too short")
  else
    match validatePrice data.price with
    | .error e => .error e
    | .ok _ => validateTargetRtp data.target_rtp

/-- The prize-row construction shared by `createScratchCardWithPrizes`
(`createMany` mapping) and `addPrizeToScratchCard`: JavaScript falsy numbers
(`0`) become `null`, and `is_active` defaults to `true`. -/
def mkPrizeRow (prizeId scratchCardId : Nat) (p : PrizeData) : Prize :=
  { id := prizeId, scratchCardId := scratchCardId, name := p.name,
    type := p.type,
    value := (match p.value with
      | some v => if v = 0 then none else some v
      | none => none),
    product_name := p.product_name,
    redemption_value := (match p.redemption_value with
      | some v => if v = 0 then none else some v
      | none => none),
    probability := p.probability,
    is_active := p.is_active.getD true }

/-- Rows created by `createMany`, with generated ids starting at `nextId`. -/
def mkPrizeRows (scratchCardId : Nat) : Nat → List PrizeData → List Prize
  | _, [] => []
  | nextId, p :: rest => mkPrizeRow nextId scratchCardId p :: mkPrizeRows scratchCardId (nextId + 1) rest

/-- The `createScratchCardWithPrizes(scratchCardData, prizesData)`: validate,
then create the card (fresh statistics) and its prize rows in one
transaction.  `newCardId` / `firstPrizeId` stand for the generated ids. -/
def createScratchCardWithPrizes (db : DB) (data : ScratchCardData)
    (prizesData : List PrizeData) (newCardId firstPrizeId : Nat) :
    Except Err (DB × ScratchCard) :=
  match validateScratchCardData data with
  | .error e => .error e
  | .ok _ =>
    match validatePrizesData prizesData with
    | .error e => .error e
    | .ok _ =>
      let scratchCard : ScratchCard :=
        { id := newCardId, name := data.name, price := data.price,
          target_rtp := data.target_rtp, is_active := data.is_active.getD true,
          current_rtp := 0, total_revenue := 0, total_payouts := 0,
          total_games_played := 0, deleted := false }
      let newPrizes := mkPrizeRows newCardId firstPrizeId prizesData
      let db2 := { db with cards := db.cards ++ [scratchCard], prizes := db.prizes ++ newPrizes }
      .ok (db2, scratchCard)

/-- The `addPrizeToScratchCard(scratchCardId, prizeData)`: the card must exist
and not be soft-deleted; only the new prize itself is validated. -/
def addPrizeToScratchCard (db : DB) (scratchCardId : Nat) (prizeData : PrizeData)
    (newPrizeId : Nat) : Except Err (DB × Prize) :=
  match db.cards.find? (fun c => c.id == scratchCardId && !c.deleted) with
  | none => .error .cardNotFound
  | some _ =>
    match validatePrizeData prizeData with
    | .error e => .error e
    | .ok _ =>
      let prize := mkPrizeRow newPrizeId scratchCardId prizeData
      .ok ({ db with prizes := db.prizes ++ [prize] }, prize)

/-- Update object for `updatePrize` (`none` = undefined). -/
structure PrizeUpdate where
  name : Option String
  type : Option String
  value : Option ℚ
  product_name : Option String
  redemption_value : Option ℚ
  probability : Option ℚ
  is_active : Option Bool
deriving DecidableEq, Repr

/-- The Prisma `data` object of `updatePrize`: numeric fields guarded by
JavaScript truthiness (`x ? Number(x) : undefined`), so a provided `0`
leaves the column unchanged. -/
def applyPrizeUpdate (u : PrizeUpdate) (p : Prize) : Prize :=
  { p with
    name := u.name.getD p.name,
    type := u.type.getD p.type,
    value := (match u.value with
      | some v => if v = 0 then p.value else some v
      | none => p.value),
    product_name := (match u.product_name with
      | some s => some s
      | none => p.product_name),
    redemption_value := (match u.redemption_value with
      | some v => if v = 0 then p.redemption_value else some v
      | none => p.redemption_value),
    probability := (match u.probability with
      | some q => if q = 0 then p.probability else q
      | none => p.probability),
    is_active := u.is_active.getD p.is_active }

/-- Row update `prize.update where id`. -/
def mapPrizeRow (ps : List Prize) (i : Nat) (newP : Prize) : List Prize :=
  ps.map fun p => if p.id == i then newP else p

/-- The `updatePrize(prizeId, updateData)`: validates only the new probability
(when provided) and the new type (when provided, truthy and different);
never re-checks the probability sum of the card. -/
def updatePrize (db : DB) (prizeId : Nat) (u : PrizeUpdate) :
    Except Err (DB × Prize) :=
  match db.prizes.find? (fun p => p.id == prizeId) with
  | none => .error .prizeNotFound
  | some existingPrize =>
    match (match u.probability with
      | some pr => validateProbability pr
      | none => .ok ()) with
    | .error e => .error e
    | .ok _ =>
      match (match u.type with
        | some t =>
            if t ≠ "" ∧ t ≠ existingPrize.type then validatePrizeType t else .ok ()
        | none => .ok ()) with
      | .error e => .error e
      | .ok _ =>
        let updated := applyPrizeUpdate u existingPrize
        .ok ({ db with prizes := mapPrizeRow db.prizes prizeId updated }, updated)

/-- Sum of the probabilities of a product's active prizes — the §3
invariant quantity. -/
def activeProbSum (db : DB) (scratchCardId : Nat) : ℚ :=
  ((db.prizes.filter (fun p => p.scratchCardId == scratchCardId && p.is_active)).map
    (fun p => p.probability)).sum

/-! ## Shared lemmas -/

theorem except_bind_ok {ε α β : Type} (x : Except ε α) (g : α → Except ε β) (v : β)
    (h : x >>= g = .ok v) : ∃ w, x = .ok w ∧ g w = .ok v := by
  cases x with
  | ok w => exact ⟨w, rfl, h⟩
  | error e => simp [Bind.bind, Except.bind] at h

theorem foldl_maxId_mem (l : List License) (a : License) :
    l.foldl (fun x b => if x.id < b.id then b else x) a = a ∨
      l.foldl (fun x b => if x.id < b.id then b else x) a ∈ l := by
  induction l generalizing a with
  | nil => left; rfl
  | cons b t ih =>
    rw [List.foldl_cons]
    rcases ih (if a.id < b.id then b else a) with h | h
    · rw [h]
      by_cases hab : a.id < b.id
      · right; rw [if_pos hab]; exact List.mem_cons_self b t
      · left; rw [if_neg hab]
    · right; exact List.mem_cons_of_mem b h

theorem foldl_maxId_le (l : List License) (a : License) :
    a.id ≤ (l.foldl (fun x b => if x.id < b.id then b else x) a).id ∧
      ∀ x ∈ l, x.id ≤ (l.foldl (fun x b => if x.id < b.id then b else x) a).id := by
  induction l generalizing a with
  | nil => exact ⟨le_refl _, by simp⟩
  | cons b t ih =>
    rw [List.foldl_cons]
    have ih2 := ih (if a.id < b.id then b else a)
    have hstep : a.id ≤ (if a.id < b.id then b else a).id := by
      by_cases hab : a.id < b.id
      · rw [if_pos hab]; exact le_of_lt hab
      · rw [if_neg hab]
    have hstepb : b.id ≤ (if a.id < b.id then b else a).id := by
      by_cases hab : a.id < b.id
      · rw [if_pos hab]
      · rw [if_neg hab]; exact le_of_not_lt hab
    refine ⟨le_trans hstep ih2.1, ?_⟩
    intro x hx
    rcases List.mem_cons.mp hx with rfl | hx
    · exact le_trans hstepb ih2.1
    · exact ih2.2 x hx

theorem getCurrentLicense_ok_max (ls : List License) (m : License)
    (h : getCurrentLicense ls = .ok m) : m ∈ ls ∧ ∀ l ∈ ls, l.id ≤ m.id := by
  match ls, h with
  | l :: rest, h =>
    have hm : rest.foldl (fun x b => if x.id < b.id then b else x) l = m := by
      simpa [getCurrentLicense] using h
    constructor
    · rcases foldl_maxId_mem rest l with h1 | h1
      · rw [← hm, h1]; exact List.mem_cons_self l rest
      · rw [← hm]; exact List.mem_cons_of_mem l h1
    · intro x hx
      rcases List.mem_cons.mp hx with rfl | hx
      · rw [← hm]; exact (foldl_maxId_le rest x).1
      · rw [← hm]; exact (foldl_maxId_le rest l).2 x hx

/-! ## Claim C8 -/

/-- C8: for every amount, `hasEnoughCredits` computes
`creditsNeeded = ceil(amount / credits_value)` when `credits_value > 0` and
`1` otherwise, and returns a structured (non-throwing) failure exactly when
the license is inactive or its credits are below `creditsNeeded`, succeeding
otherwise. -/
theorem hasEnoughCredits_ceil_and_failure_iff (ls : List License) (amount : ℚ)
    (m : License) (h : getCurrentLicense ls = .ok m) :
    hasEnoughCredits ls amount =
      .ok (if m.is_active = false then CreditCheckResult.inactive m
        else if m.credits < (if m.credits_value > 0 then ⌈amount / m.credits_value⌉ else 1) then
          CreditCheckResult.insufficient
            (if m.credits_value > 0 then ⌈amount / m.credits_value⌉ else 1) m
        else CreditCheckResult.enough
            (if m.credits_value > 0 then ⌈amount / m.credits_value⌉ else 1) m)
    ∧ ∀ c, hasEnoughCredits ls amount = .ok c →
        (c.success = false ↔
          (m.is_active = false ∨
            m.credits < (if m.credits_value > 0 then ⌈amount / m.credits_value⌉ else 1))) := by
  have h1 : hasEnoughCredits ls amount =
      .ok (if m.is_active = false then CreditCheckResult.inactive m
        else if m.credits < (if m.credits_value > 0 then ⌈amount / m.credits_value⌉ else 1) then
          CreditCheckResult.insufficient
            (if m.credits_value > 0 then ⌈amount / m.credits_value⌉ else 1) m
        else CreditCheckResult.enough
            (if m.credits_value > 0 then ⌈amount / m.credits_value⌉ else 1) m) := by
    simp only [hasEnoughCredits, h, creditsNeededFor, Bind.bind, Except.bind]
    split_ifs <;> rfl
  refine ⟨h1, ?_⟩
  intro c hc
  rw [h1] at hc
  have hc2 := Except.ok.inj hc
  subst hc2
  by_cases ha : m.is_active = false
  · simp [ha, CreditCheckResult.success]
  · by_cases hcr : m.credits < (if m.credits_value > 0 then ⌈amount / m.credits_value⌉ else 1)
    · simp [ha, hcr, CreditCheckResult.success]
    · simp [ha, hcr, CreditCheckResult.success]

/-- Example license for the C8 witness: active, 2 credits, credit value 2. -/
def exLicC8 : License :=
  { id := 1, credits := 2, credits_used := 0, credits_value := 2,
    ggr_percentage := 10, total_earnings := 0, is_active := true }

/-- C8 witness: with credit value 2 and a 5-unit wager, 3 credits are
needed and 2 available, so the check fails structurally. -/
theorem hasEnoughCredits_ceil_witness :
    hasEnoughCredits [exLicC8] 5 = .ok (.insufficient 3 exLicC8) := by
  have h := (hasEnoughCredits_ceil_and_failure_iff [exLicC8] 5 exLicC8 rfl).1
  have hc : (⌈(5 : ℚ) / (2 : ℚ)⌉ : ℤ) = 3 := by
    rw [Int.ceil_eq_iff]
    norm_num
  rw [h]
  norm_num [exLicC8, hc]

/-! ## Claim C10 -/

/-- C10: every License Meter operation (status check, credit check,
consumption, credit or parameter edits) acts on the single current license —
the row with the greatest id — and fails with an error when no license row
exists at all. -/
theorem licenseOps_target_current_license (ls : List License) (amount a : ℚ)
    (n : Int) (p : LicenseParams) (uid cid : Nat) :
    (ls = [] →
      getCurrentLicense ls = .error .noLicense
      ∧ checkLicenseStatus ls = .failure .noLicense
      ∧ hasEnoughCredits ls amount = .error .noLicense
      ∧ (∀ txls, consumeCreditsAndAddEarnings amount uid cid ls txls = .error .noLicense)
      ∧ editCredits ls n = .error .noLicense
      ∧ addEarnings ls a = .error .noLicense
      ∧ updateLicenseParams ls p = .error .noLicense)
    ∧ ∀ m, getCurrentLicense ls = .ok m →
        m ∈ ls ∧ (∀ l ∈ ls, l.id ≤ m.id)
        ∧ checkLicenseStatus ls =
            .status m.is_active (decide (m.credits > 0)) m.credits m.credits_used
              m.credits_value m.ggr_percentage m.total_earnings m
        ∧ (∀ c, hasEnoughCredits ls amount = .ok c → c.license = m)
        ∧ editCredits ls n = .ok (mapLicense ls m.id fun l => { l with credits := n })
        ∧ addEarnings ls a =
            .ok (mapLicense ls m.id fun l =>
              { l with total_earnings := l.total_earnings + a })
        ∧ updateLicenseParams ls p =
            .ok (mapLicense ls m.id fun l =>
              { l with
                credits := p.credits.getD l.credits,
                credits_value := p.credits_value.getD l.credits_value,
                ggr_percentage := p.ggr_percentage.getD l.ggr_percentage,
                is_active := p.is_active.getD l.is_active })
        ∧ (∀ txls txl u cc g,
            consumeCreditsAndAddEarnings amount uid cid ls txls = .ok (.success txl u cc g) →
              u.licenseId = m.id) := by
  constructor
  · rintro rfl
    exact ⟨rfl, rfl, rfl, fun _ => rfl, rfl, rfl, rfl⟩
  · intro m hm
    obtain ⟨hmem, hle⟩ := getCurrentLicense_ok_max ls m hm
    refine ⟨hmem, hle, ?_, ?_, ?_, ?_, ?_, ?_⟩
    · simp [checkLicenseStatus, hm]
    · intro c hc
      simp only [hasEnoughCredits, hm, Bind.bind, Except.bind] at hc
      split_ifs at hc <;>
        · have := Except.ok.inj hc
          subst this
          rfl
    · simp [editCredits, hm, Bind.bind, Except.bind]; rfl
    · simp [addEarnings, hm, Bind.bind, Except.bind]; rfl
    · simp [updateLicenseParams, hm, Bind.bind, Except.bind]; rfl
    · intro txls txl u cc g hcons
      simp only [consumeCreditsAndAddEarnings, hasEnoughCredits, hm, Bind.bind,
        Except.bind, pure, Except.pure] at hcons
      split_ifs at hcons
      · simp at hcons
      · simp at hcons
      · injection Except.ok.inj hcons with h1 h2 h3 h4
        subst h2
        rfl

/-- Example licenses for the C10 witness: ids 3, 7, 5 — the current license
must be the one with id 7. -/
def exLicsC10 : List License :=
  [ { id := 3, credits := 1, credits_used := 0, credits_value := 1,
      ggr_percentage := 0, total_earnings := 0, is_active := true },
    { id := 7, credits := 9, credits_used := 0, credits_value := 1,
      ggr_percentage := 0, total_earnings := 0, is_active := true },
    { id := 5, credits := 2, credits_used := 0, credits_value := 1,
      ggr_percentage := 0, total_earnings := 0, is_active := true } ]

/-- C10 witness: on a concrete three-license store the operations act on the
row with greatest id (7), and on the empty store they fail. -/
theorem licenseOps_target_current_license_witness :
    (getCurrentLicense [] = .error .noLicense
      ∧ editCredits [] 4 = .error .noLicense)
    ∧ exLicsC10[1] ∈ exLicsC10
    ∧ exLicsC10[0].id ≤ exLicsC10[1].id
    ∧ exLicsC10[2].id ≤ exLicsC10[1].id := by
  have h := licenseOps_target_current_license exLicsC10 1 1 4
    { credits := none, credits_value := none, ggr_percentage := none, is_active := none } 1 1
  have h0 := licenseOps_target_current_license ([] : List License) 1 1 4
    { credits := none, credits_value := none, ggr_percentage := none, is_active := none } 1 1
  have hcur : getCurrentLicense exLicsC10 = .ok exLicsC10[1] := by rfl
  obtain ⟨hmem, hle, _⟩ := h.2 _ hcur
  refine ⟨⟨(h0.1 rfl).1, (h0.1 rfl).2.2.2.2.1⟩, hmem, ?_, ?_⟩
  · exact hle exLicsC10[0] (by simp [exLicsC10])
  · exact hle exLicsC10[2] (by simp [exLicsC10])

/-! ## Claim C4 -/

theorem winsPrize_eq_find (r mult : ℚ) :
    ∀ (ps : List Prize) (acc : ℚ),
      winsPrize r mult ps acc
        = ((cumulativeSums mult ps acc).find? (fun pc => decide (pc.2 ≥ r))).map Prod.fst := by
  intro ps
  induction ps with
  | nil => intro acc; rfl
  | cons p rest ih =>
    intro acc
    rw [winsPrize, cumulativeSums]
    by_cases hc : r ≤ acc + p.probability * mult
    · rw [if_pos hc, List.find?_cons_of_pos _ (by simpa [ge_iff_le] using hc)]
      rfl
    · rw [if_neg hc, List.find?_cons_of_neg _ (by simpa [ge_iff_le] using hc)]
      exact ih (acc + p.probability * mult)

/-- C4: the outcome resolver equals the specified algorithm for every prize
list, RTP pair, privilege flag, and draw r in [0,100): the multiplier is
1.2 / 0.8 / 1.0 according to current vs target RTP, times 6 for privileged
players; no active prizes means a loss; otherwise the first prize whose
cumulative `probability×multiplier` sum is ≥ r wins, and a total below r is
a loss. -/
theorem determineGameResult_matches_spec (sc : CardWithPrizes) (u : Option User)
    (r : ℚ) (_h0 : 0 ≤ r) (_h1 : r < 100) :
    determineGameResult sc u r
      = determineGameResultSpec sc.prizes sc.card.current_rtp sc.card.target_rtp
          (isInfluencerUser u) r := by
  have resolve_match : ∀ (ps : List Prize) (mult : ℚ),
      (match winsPrize r mult ps 0 with
        | some prize => GameResult.mk true (some prize)
        | none => GameResult.mk false none)
      = match (cumulativeSums mult ps 0).find? (fun pc => decide (pc.2 ≥ r)) with
        | some pc => GameResult.mk true (some pc.1)
        | none => GameResult.mk false none := by
    intro ps mult
    rw [winsPrize_eq_find]
    cases hfind : (cumulativeSums mult ps 0).find? (fun pc => decide (pc.2 ≥ r)) with
    | none => rfl
    | some pc => rfl
  rw [determineGameResult, determineGameResultSpec]
  by_cases hps : sc.prizes = []
  · simp [hps]
  · rw [if_neg (by simpa [List.isEmpty_iff] using hps), if_neg hps]
    exact resolve_match sc.prizes _

/-- Example prize list for the C4 witness. -/
def exPrizesC4 : List Prize :=
  [ { id := 1, scratchCardId := 1, name := "P1", type := "MONEY", value := some 10,
      product_name := none, redemption_value := none, probability := 30, is_active := true },
    { id := 2, scratchCardId := 1, name := "P2", type := "PRODUCT", value := none,
      product_name := some "TV", redemption_value := some 100, probability := 20,
      is_active := true } ]

/-- Example card for the C4 witness (current RTP below target, so the 1.2
multiplier applies). -/
def exCardC4 : CardWithPrizes :=
  { card := { id := 1, name := "Card", price := 1, target_rtp := 85, current_rtp := 50,
              total_revenue := 100, total_payouts := 50, total_games_played := 10,
              is_active := true, deleted := false },
    prizes := exPrizesC4 }

/-- C4 witness: the resolver and the specified algorithm agree at a concrete
card, non-privileged player and draw 40 (which lands on the second prize:
30·1.2 = 36 < 40 ≤ 60). -/
theorem determineGameResult_matches_spec_witness :
    (0 : ℚ) ≤ 40 ∧ (40 : ℚ) < 100
    ∧ determineGameResult exCardC4 none 40
        = determineGameResultSpec exCardC4.prizes exCardC4.card.current_rtp
            exCardC4.card.target_rtp (isInfluencerUser none) 40
    ∧ determineGameResult exCardC4 none 40
        = { isWinner := true, prize := some exPrizesC4[1] } := by
  refine ⟨by norm_num, by norm_num,
    determineGameResult_matches_spec exCardC4 none 40 (by norm_num) (by norm_num), ?_⟩
  rw [determineGameResult]
  norm_num [exCardC4, exPrizesC4, isInfluencerUser, winsPrize]

/-! ## Claim C2 -/

/-- Committed license state seen by the module-level client in the C2
counterexample: active, 10 credits. -/
def exGlobalLicC2 : License :=
  { id := 1, credits := 10, credits_used := 0, credits_value := 1,
    ggr_percentage := 10, total_earnings := 0, is_active := true }

/-- The same license row as the open transaction sees it in the C2
counterexample: inactive with 0 credits. -/
def exTxLicC2 : License :=
  { id := 1, credits := 0, credits_used := 10, credits_value := 1,
    ggr_percentage := 10, total_earnings := 0, is_active := false }

/-- C2 counterexample: the state the transaction handle sees fails
`hasEnoughCredits` (license inactive, 0 credits), yet
`consumeCreditsAndAddEarnings` succeeds — its re-check reads the
module-level client's committed state, not the transaction's — and drives
the transaction-state credits to −5.  Under the claim (re-validation against
the state inside the same transaction) this call would have to fail. -/
theorem consumeCredits_ignores_tx_state :
    hasEnoughCredits [exTxLicC2] 5 = .ok (.inactive exTxLicC2)
    ∧ consumeCreditsAndAddEarnings 5 7 9 [exGlobalLicC2] [exTxLicC2]
        = .ok (.success
            [{ id := 1, credits := -5, credits_used := 15, credits_value := 1,
               ggr_percentage := 10, total_earnings := 1/2, is_active := false }]
            { userId := 7, licenseId := 1, scratchCardId := 9, credits_used := 5 }
            5 (1/2)) := by
  constructor
  · rfl
  · have hc : (⌈(5 : ℚ) / (1 : ℚ)⌉ : ℤ) = 5 := by norm_num
    simp only [consumeCreditsAndAddEarnings, hasEnoughCredits, getCurrentLicense,
      creditsNeededFor, mapLicense, Bind.bind, Except.bind, pure, Except.pure,
      exGlobalLicC2, exTxLicC2, List.foldl, List.map]
    norm_num [hc]

/-- C2 amended: `consumeCreditsAndAddEarnings` re-validates
`hasEnoughCredits` against the committed state read through the module-level
prisma client (`global`) — not the transaction's view (`txls`) — and on a
passing check decrements that license's credits by `creditsNeeded`,
increments `credits_used` by the same amount, increments `total_earnings` by
`amount × ggr_percentage / 100`, applying these to the row in the
transaction's state, and appends exactly one UsageRecord. -/
theorem consumeCredits_global_check_and_effects (amount : ℚ) (uid cid : Nat)
    (global txls : List License) (m : License)
    (hm : getCurrentLicense global = .ok m) :
    (m.is_active = false →
      consumeCreditsAndAddEarnings amount uid cid global txls
        = .ok (.failure (.inactive m)))
    ∧ (m.is_active = true → m.credits < creditsNeededFor m amount →
      consumeCreditsAndAddEarnings amount uid cid global txls
        = .ok (.failure (.insufficient (creditsNeededFor m amount) m)))
    ∧ (m.is_active = true → creditsNeededFor m amount ≤ m.credits →
      consumeCreditsAndAddEarnings amount uid cid global txls
        = .ok (.success
            (mapLicense txls m.id fun l =>
              { l with
                credits_used := l.credits_used + creditsNeededFor m amount,
                credits := l.credits - creditsNeededFor m amount,
                total_earnings := l.total_earnings + amount * (m.ggr_percentage / 100) })
            { userId := uid, licenseId := m.id, scratchCardId := cid,
              credits_used := creditsNeededFor m amount }
            (creditsNeededFor m amount)
            (amount * (m.ggr_percentage / 100)))) := by
  refine ⟨?_, ?_, ?_⟩
  · intro ha
    simp [consumeCreditsAndAddEarnings, hasEnoughCredits, hm, ha,
      Bind.bind, Except.bind, pure, Except.pure]
  · intro ha hcr
    simp [consumeCreditsAndAddEarnings, hasEnoughCredits, hm, ha, hcr,
      Bind.bind, Except.bind, pure, Except.pure]
  · intro ha hcr
    simp [consumeCreditsAndAddEarnings, hasEnoughCredits, hm, ha,
      not_lt.mpr hcr, Bind.bind, Except.bind, pure, Except.pure]

/-- C2 witness: a concrete successful consumption — 5 units at credit value
1 consume 5 credits and add 10% GGR earnings to the transaction's row. -/
theorem consumeCredits_global_check_witness :
    consumeCreditsAndAddEarnings 5 7 9 [exGlobalLicC2] [exGlobalLicC2]
      = .ok (.success
          [{ id := 1, credits := 5, credits_used := 5, credits_value := 1,
             ggr_percentage := 10, total_earnings := 1/2, is_active := true }]
          { userId := 7, licenseId := 1, scratchCardId := 9, credits_used := 5 }
          5 (1/2)) := by
  have h := (consumeCredits_global_check_and_effects 5 7 9 [exGlobalLicC2]
    [exGlobalLicC2] exGlobalLicC2 rfl).2.2 rfl
    (by norm_num [creditsNeededFor, exGlobalLicC2])
  rw [h]
  norm_num [creditsNeededFor, mapLicense, exGlobalLicC2]

/-! ## Claim C1 -/

/-- Transaction-view database for the C1 failing input: one user (id 10)
with wallet 5 holding balance 10, one active card (id 20, price 1, no
prizes), and a license snapshot with 5 credits. -/
def exDBC1 : DB :=
  { users := [{ id := 10, is_influencer := false, total_scratchs := 0,
                total_wins := 0, total_losses := 0 }],
    wallets := [{ id := 5, userId := 10, balance := 10 }],
    cards := [{ id := 20, name := "Card", price := 1, target_rtp := 85,
                current_rtp := 0, total_revenue := 0, total_payouts := 0,
                total_games_played := 0, is_active := true, deleted := false }],
    prizes := [], games := [],
    licenses := [{ id := 1, credits := 5, credits_used := 0, credits_value := 1,
                   ggr_percentage := 10, total_earnings := 0, is_active := true }],
    usages := [] }

/-- Committed license state at consumption time for C1: the credits were
drained (concurrently) to 0 after the advisory pre-check passed. -/
def exDrainedLicsC1 : List License :=
  [{ id := 1, credits := 0, credits_used := 5, credits_value := 1,
     ggr_percentage := 10, total_earnings := 0, is_active := true }]

/-- C1 failing input, evaluated: the License Meter consumption step fails
(0 credits at consumption time, so `consumeCreditsAndAddEarnings` returns
its structured `Créditos insuficientes` failure), yet the enclosing play
transaction body returns successfully and commits: the wallet is debited
(10 → 9), the GameRecord is created, the product statistics are updated
(revenue 0 → 1, one game played) — nothing is rolled back; only the license
row and the usage trail stay untouched, so the play bypasses the gate.
The claim (and §4.3/§7 of the spec) requires the whole transaction to
abort instead. -/
theorem playTx_commits_despite_failed_consumption :
    consumeCreditsAndAddEarnings 1 10 20 exDrainedLicsC1 exDBC1.licenses
      = .ok (.failure (.insufficient 1
          { id := 1, credits := 0, credits_used := 5, credits_value := 1,
            ggr_percentage := 10, total_earnings := 0, is_active := true }))
    ∧ playTx exDBC1 10 20 5 1 { isWinner := false, prize := none } 0 none none
        false exDrainedLicsC1 99
      = .ok (
          { users := [{ id := 10, is_influencer := false, total_scratchs := 1,
                        total_wins := 0, total_losses := 1 }],
            wallets := [{ id := 5, userId := 10, balance := 9 }],
            cards := [{ id := 20, name := "Card", price := 1, target_rtp := 85,
                        current_rtp := 0, total_revenue := 1, total_payouts := 0,
                        total_games_played := 1, is_active := true, deleted := false }],
            prizes := [],
            games := [{ id := 99, userId := 10, scratchCardId := 20, prizeId := none,
                        is_winner := false, amount_won := 0, prize_type := none,
                        redemption_choice := false, status := .COMPLETED }],
            licenses := exDBC1.licenses,
            usages := [] },
          { id := 99, userId := 10, scratchCardId := 20, prizeId := none,
            is_winner := false, amount_won := 0, prize_type := none,
            redemption_choice := false, status := .COMPLETED }) := by
  constructor
  · simp only [consumeCreditsAndAddEarnings, hasEnoughCredits, getCurrentLicense,
      creditsNeededFor, exDrainedLicsC1, exDBC1, List.foldl, Bind.bind, Except.bind,
      pure, Except.pure]
    norm_num
  · simp only [playTx, rtpStep, consumeCreditsAndAddEarnings, hasEnoughCredits,
      getCurrentLicense, creditsNeededFor, mapWallet, mapCard, mapUserStats,
      prizeIsMoney, exDrainedLicsC1, exDBC1, List.foldl, List.map, List.find?,
      Bind.bind, Except.bind, pure, Except.pure]
    norm_num

/-! ## Redemption lemmas (shared by the redemption claims) -/

theorem redeemableGame_props (uid gid : Nat) (g : Game)
    (h : redeemableGame uid gid g = true) :
    g.id = gid ∧ g.userId = uid ∧ g.is_winner = true ∧ g.status = GameStatus.COMPLETED := by
  simp only [redeemableGame, Bool.and_eq_true, beq_iff_eq, decide_eq_true_eq] at h
  exact ⟨h.1.1.1, h.1.1.2, h.1.2, h.2⟩

theorem find?_mapGame_none (gs : List Game) (gid : Nat) (u : Game) (p : Game → Bool)
    (hidp : ∀ g, p g = true → g.id = gid) (hu : p u = false) :
    (mapGame gs gid (fun _ => u)).find? p = none := by
  induction gs with
  | nil => rfl
  | cons g t ih =>
    show ((if g.id == gid then u else g) :: mapGame t gid (fun _ => u)).find? p = none
    by_cases hid : g.id = gid
    · rw [if_pos (by simpa using hid), List.find?_cons_of_neg _ (by simp [hu])]
      exact ih
    · have hpg : p g = false := by
        cases hpg : p g
        · rfl
        · exact absurd (hidp g hpg) hid
      rw [if_neg (by simpa using hid), List.find?_cons_of_neg _ (by simp [hpg])]
      exact ih

theorem find?_after_mapGame (gs : List Game) (gid : Nat) (u : Game) (p : Game → Bool)
    (hidp : ∀ g, p g = true → g.id = gid)
    (g0 : Game) (hg0 : gs.find? p = some g0) :
    (mapGame gs gid (fun _ => u)).find? p = if p u then some u else none := by
  induction gs with
  | nil => simp at hg0
  | cons g t ih =>
    show ((if g.id == gid then u else g) :: mapGame t gid (fun _ => u)).find? p
      = if p u then some u else none
    by_cases hid : g.id = gid
    · rw [if_pos (by simpa using hid)]
      by_cases hu : p u
      · rw [List.find?_cons_of_pos _ hu, if_pos hu]
      · rw [List.find?_cons_of_neg _ (by simpa using hu), if_neg hu]
        exact find?_mapGame_none t gid u p hidp (by simpa using hu)
    · have hpg : p g = false := by
        cases hpg : p g
        · rfl
        · exact absurd (hidp g hpg) hid
      rw [if_neg (by simpa using hid), List.find?_cons_of_neg _ (by simp [hpg])]
      rw [List.find?_cons_of_neg _ (by simp [hpg])] at hg0
      exact ih hg0

/-- Evaluation of the money branch of `chooseRedemption` on any eligible
state. -/
theorem chooseRedemption_money_eq (db : DB) (uid gid : Nat) (game : Game)
    (prize : Prize) (wallet : Wallet) (rest : List Wallet)
    (hg : db.games.find? (redeemableGame uid gid) = some game)
    (hp : findPrizeOfGame db game = some prize)
    (htype : prize.type = "PRODUCT")
    (hrc : game.redemption_choice = false)
    (hw : userWallets db uid = wallet :: rest)
    (hrv : 0 < prize.redemption_value.getD 0) :
    chooseRedemption db uid gid "money" = .ok (
      { db with
        wallets := (mapWallet db.wallets wallet.id
          (fun b => b + prize.redemption_value.getD 0)),
        games := (mapGame db.games gid (fun _ =>
          { game with
            redemption_choice := true,
            amount_won := prize.redemption_value.getD 0,
            prize_type := some "REDEMPTION" })),
        cards := (mapCard db.cards game.scratchCardId (fun c =>
          { c with total_payouts := c.total_payouts + prize.redemption_value.getD 0 })) },
      { game with
        redemption_choice := true,
        amount_won := prize.redemption_value.getD 0,
        prize_type := some "REDEMPTION" }) := by
  have hrv2 : ¬ (prize.redemption_value.getD 0 ≤ 0) := not_le.mpr hrv
  simp [chooseRedemption, hg, hp, hw, htype, hrc, hrv2]

/-- Evaluation of the product branch of `chooseRedemption` on any eligible
state. -/
theorem chooseRedemption_product_eq (db : DB) (uid gid : Nat) (game : Game)
    (prize : Prize) (wallet : Wallet) (rest : List Wallet)
    (hg : db.games.find? (redeemableGame uid gid) = some game)
    (hp : findPrizeOfGame db game = some prize)
    (htype : prize.type = "PRODUCT")
    (hrc : game.redemption_choice = false)
    (hw : userWallets db uid = wallet :: rest) :
    chooseRedemption db uid gid "product" = .ok (
      { db with
        games := (mapGame db.games gid (fun _ =>
          { game with
            redemption_choice := false,
            prize_type := some "PRODUCT",
            status := .PENDING_DELIVERY })) },
      { game with
        redemption_choice := false,
        prize_type := some "PRODUCT",
        status := .PENDING_DELIVERY }) := by
  simp [chooseRedemption, hg, hp, hw, htype, hrc]

/-- Any call on a record whose `redemption_choice` is already `true` fails
with the AlreadyRedeemed error, before any wallet access. -/
theorem chooseRedemption_error_of_choiceTrue (db : DB) (uid gid : Nat) (g : Game)
    (prize : Prize)
    (hg : db.games.find? (redeemableGame uid gid) = some g)
    (hp : findPrizeOfGame db g = some prize)
    (htype : prize.type = "PRODUCT")
    (hrc : g.redemption_choice = true) :
    ∀ c, chooseRedemption db uid gid c = .error .alreadyRedeemed := by
  intro c
  simp [chooseRedemption, hg, hp, htype, hrc]

/-- Any call for which the eligible-game lookup fails errors with the
not-found / not-eligible message. -/
theorem chooseRedemption_error_of_notFound (db : DB) (uid gid : Nat)
    (hg : db.games.find? (redeemableGame uid gid) = none) :
    ∀ c, chooseRedemption db uid gid c = .error .gameNotEligible := by
  intro c
  simp [chooseRedemption, hg]

/-! ## Claim C7 -/

/-- C7: for every eligible PRODUCT-prize game, choosing money credits the
wallet by exactly the prize's `redemption_value`, marks the record as
chose-money (`redemption_choice = true`), sets `amount_won` to the
redemption value and `prize_type` to `"REDEMPTION"`, and increments the
product's `total_payouts` by the redemption value. -/
theorem chooseRedemption_money_effects (db : DB) (uid gid : Nat) (game : Game)
    (prize : Prize) (wallet : Wallet) (rest : List Wallet)
    (hg : db.games.find? (redeemableGame uid gid) = some game)
    (hp : findPrizeOfGame db game = some prize)
    (htype : prize.type = "PRODUCT")
    (hrc : game.redemption_choice = false)
    (hw : userWallets db uid = wallet :: rest)
    (hrv : 0 < prize.redemption_value.getD 0) :
    chooseRedemption db uid gid "money" = .ok (
      { db with
        wallets := (mapWallet db.wallets wallet.id
          (fun b => b + prize.redemption_value.getD 0)),
        games := (mapGame db.games gid (fun _ =>
          { game with
            redemption_choice := true,
            amount_won := prize.redemption_value.getD 0,
            prize_type := some "REDEMPTION" })),
        cards := (mapCard db.cards game.scratchCardId (fun c =>
          { c with total_payouts := c.total_payouts + prize.redemption_value.getD 0 })) },
      { game with
        redemption_choice := true,
        amount_won := prize.redemption_value.getD 0,
        prize_type := some "REDEMPTION" }) :=
  chooseRedemption_money_eq db uid gid game prize wallet rest hg hp htype hrc hw hrv

/-- The eligible PRODUCT-prize game used by the redemption examples. -/
def exGameC7 : Game :=
  { id := 40, userId := 10, scratchCardId := 20, prizeId := some 31,
    is_winner := true, amount_won := 0, prize_type := some "PRODUCT",
    redemption_choice := false, status := .COMPLETED }

/-- Database of the redemption examples: a winning completed PRODUCT-prize
game (redemption value 50) whose redemption is still undecided. -/
def exDBC7 : DB :=
  { users := [{ id := 10, is_influencer := false, total_scratchs := 1,
                total_wins := 1, total_losses := 0 }],
    wallets := [{ id := 5, userId := 10, balance := 2 }],
    cards := [{ id := 20, name := "Card", price := 1, target_rtp := 85,
                current_rtp := 0, total_revenue := 1, total_payouts := 0,
                total_games_played := 1, is_active := true, deleted := false }],
    prizes := [{ id := 31, scratchCardId := 20, name := "TV", type := "PRODUCT",
                 value := none, product_name := some "TV", redemption_value := some 50,
                 probability := 5, is_active := true }],
    games := [exGameC7],
    licenses := [{ id := 1, credits := 5, credits_used := 0, credits_value := 1,
                   ggr_percentage := 10, total_earnings := 0, is_active := true }],
    usages := [] }

/-- C7 witness: on the concrete eligible game, choosing money credits the
wallet 2 → 52, rewrites the game row and adds 50 to the product's payouts. -/
theorem chooseRedemption_money_effects_witness :
    chooseRedemption exDBC7 10 40 "money" = .ok (
      { exDBC7 with
        wallets := [{ id := 5, userId := 10, balance := 52 }],
        games := [{ exGameC7 with
          redemption_choice := true, amount_won := 50,
          prize_type := some "REDEMPTION" }],
        cards := [{ id := 20, name := "Card", price := 1, target_rtp := 85,
                    current_rtp := 0, total_revenue := 1, total_payouts := 50,
                    total_games_played := 1, is_active := true, deleted := false }] },
      { exGameC7 with
        redemption_choice := true, amount_won := 50,
        prize_type := some "REDEMPTION" }) := by
  have h := chooseRedemption_money_effects exDBC7 10 40 exGameC7
    (exDBC7.prizes[0]) (exDBC7.wallets[0]) [] rfl rfl rfl rfl rfl (by norm_num [exDBC7])
  rw [h]
  norm_num [exDBC7, exGameC7, mapWallet, mapGame, mapCard]

/-! ## Claim C3 -/

/-- The game row after choosing the physical product: `redemption_choice`
stays `false`, the status becomes `PENDING_DELIVERY`. -/
def exGameC3P : Game :=
  { exGameC7 with
    redemption_choice := false, prize_type := some "PRODUCT",
    status := .PENDING_DELIVERY }

/-- The example database after choosing the physical product. -/
def exDBC3P : DB := { exDBC7 with games := [exGameC3P] }

/-- C3 counterexample: after a successful ChooseRedemption with choice =
product, the second call on the same record fails with the not-found /
not-eligible error (the record is no longer `COMPLETED`), not with
AlreadyRedeemed as the claim states. -/
theorem chooseRedemption_second_call_after_product_not_alreadyRedeemed :
    chooseRedemption exDBC7 10 40 "product" = .ok (exDBC3P, exGameC3P)
    ∧ chooseRedemption exDBC3P 10 40 "money" = .error .gameNotEligible
    ∧ Err.gameNotEligible ≠ Err.alreadyRedeemed := by
  refine ⟨?_, rfl, by decide⟩
  have h := chooseRedemption_product_eq exDBC7 10 40 exGameC7
    (exDBC7.prizes[0]) (exDBC7.wallets[0]) [] rfl rfl rfl rfl rfl
  rw [h]
  norm_num [exDBC7, exDBC3P, exGameC7, exGameC3P, mapGame]

/-- C3 amended: the redemption transition is exactly-once and the wallet is
credited at most once, but the error of the second call depends on the first
choice: after chose-money the second call fails with AlreadyRedeemed, while
after chose-product the record has left the `COMPLETED` status and the
second call fails with the not-found / not-eligible error. -/
theorem chooseRedemption_exactly_once (db : DB) (uid gid : Nat) (game : Game)
    (prize : Prize) (wallet : Wallet) (rest : List Wallet)
    (hg : db.games.find? (redeemableGame uid gid) = some game)
    (hp : findPrizeOfGame db game = some prize)
    (htype : prize.type = "PRODUCT")
    (hrc : game.redemption_choice = false)
    (hw : userWallets db uid = wallet :: rest) :
    (∀ db2 g2, chooseRedemption db uid gid "money" = .ok (db2, g2) →
      ∀ choice2, chooseRedemption db2 uid gid choice2 = .error .alreadyRedeemed)
    ∧ (∀ db2 g2, chooseRedemption db uid gid "product" = .ok (db2, g2) →
      ∀ choice2, chooseRedemption db2 uid gid choice2 = .error .gameNotEligible) := by
  obtain ⟨hid, huid, hwin, hst⟩ :=
    redeemableGame_props uid gid game (List.find?_some hg)
  constructor
  · intro db2 g2 hok choice2
    by_cases hrv : 0 < prize.redemption_value.getD 0
    · have heq := chooseRedemption_money_eq db uid gid game prize wallet rest
        hg hp htype hrc hw hrv
      rw [heq] at hok
      injection Except.ok.inj hok with hdb hgame
      subst hdb
      subst hgame
      -- the second call finds the updated game, whose redemption_choice is true
      have hfind2 : (mapGame db.games gid (fun _ =>
          { game with
            redemption_choice := true,
            amount_won := prize.redemption_value.getD 0,
            prize_type := some "REDEMPTION" })).find? (redeemableGame uid gid)
          = some { game with
              redemption_choice := true,
              amount_won := prize.redemption_value.getD 0,
              prize_type := some "REDEMPTION" } := by
        rw [find?_after_mapGame db.games gid _ (redeemableGame uid gid)
          (fun g hgp => (redeemableGame_props uid gid g hgp).1) game hg]
        rw [if_pos (by simp [redeemableGame, hid, huid, hwin, hst])]
      refine chooseRedemption_error_of_choiceTrue _ uid gid
        { game with
          redemption_choice := true,
          amount_won := prize.redemption_value.getD 0,
          prize_type := some "REDEMPTION" } prize ?_ ?_ htype rfl choice2
      · exact hfind2
      · exact hp
    · exfalso
      have hrv2 : prize.redemption_value.getD 0 ≤ 0 := not_lt.mp hrv
      simp [chooseRedemption, hg, hp, hw, htype, hrc, hrv2] at hok
  · intro db2 g2 hok choice2
    have heq := chooseRedemption_product_eq db uid gid game prize wallet rest
      hg hp htype hrc hw
    rw [heq] at hok
    injection Except.ok.inj hok with hdb hgame
    subst hdb
    subst hgame
    have hfind2 : (mapGame db.games gid (fun _ =>
        { game with
          redemption_choice := false, prize_type := some "PRODUCT",
          status := .PENDING_DELIVERY })).find? (redeemableGame uid gid) = none := by
      rw [find?_after_mapGame db.games gid _ (redeemableGame uid gid)
        (fun g hgp => (redeemableGame_props uid gid g hgp).1) game hg]
      rw [if_neg (by simp [redeemableGame])]
    exact chooseRedemption_error_of_notFound _ uid gid hfind2 choice2

/-- The game row after the witness money choice. -/
def exGameC3M : Game :=
  { exGameC7 with
    redemption_choice := true, amount_won := 50, prize_type := some "REDEMPTION" }

/-- The example database after the witness money choice. -/
def exDBC3M : DB :=
  { exDBC7 with
    wallets := [{ id := 5, userId := 10, balance := 52 }],
    games := [exGameC3M],
    cards := [{ id := 20, name := "Card", price := 1, target_rtp := 85,
                current_rtp := 0, total_revenue := 1, total_payouts := 50,
                total_games_played := 1, is_active := true, deleted := false }] }

/-- C3 witness: on the concrete eligible game, first choice money succeeds
and the second call fails with AlreadyRedeemed. -/
theorem chooseRedemption_exactly_once_witness :
    chooseRedemption exDBC7 10 40 "money" = .ok (exDBC3M, exGameC3M)
    ∧ chooseRedemption exDBC3M 10 40 "money" = .error .alreadyRedeemed := by
  have hok : chooseRedemption exDBC7 10 40 "money" = .ok (exDBC3M, exGameC3M) := by
    have h := chooseRedemption_money_eq exDBC7 10 40 exGameC7
      (exDBC7.prizes[0]) (exDBC7.wallets[0]) [] rfl rfl rfl rfl rfl
      (by norm_num [exDBC7])
    rw [h]
    norm_num [exDBC7, exDBC3M, exGameC7, exGameC3M, mapWallet, mapGame, mapCard]
  have h2 := (chooseRedemption_exactly_once exDBC7 10 40 exGameC7
    (exDBC7.prizes[0]) (exDBC7.wallets[0]) [] rfl rfl rfl rfl rfl).1
  exact ⟨hok, h2 exDBC3M exGameC3M hok "money"⟩

/-! ## Keyed-lookup lemmas and play-transaction inversion -/

theorem find?_key_of_mem_nodup {α : Type} (key : α → Nat) (l : List α) (a : α)
    (ha : a ∈ l) (hnd : (l.map key).Nodup) :
    l.find? (fun x => key x == key a) = some a := by
  induction l with
  | nil => simp at ha
  | cons h t ih =>
    rw [List.map_cons, List.nodup_cons] at hnd
    rcases List.mem_cons.mp ha with rfl | hat
    · rw [List.find?_cons_of_pos _ (by simp)]
    · have hk : key h ≠ key a := by
        intro he
        exact hnd.1 (he ▸ List.mem_map_of_mem key hat)
      rw [List.find?_cons_of_neg _ (by simpa using hk)]
      exact ih hat hnd.2

theorem find?_map_keyed {α : Type} (key : α → Nat) (F : α → α)
    (hF : ∀ x, key (F x) = key x) (i q : Nat) :
    ∀ l : List α,
      (l.map (fun x => if key x == i then F x else x)).find? (fun x => key x == q)
        = (l.find? (fun x => key x == q)).map (fun x => if key x == i then F x else x) := by
  intro l
  induction l with
  | nil => rfl
  | cons h t ih =>
    rw [List.map_cons]
    have hkey : key (if key h == i then F h else h) = key h := by
      by_cases hk : key h = i
      · rw [if_pos (by simpa using hk)]; exact hF h
      · rw [if_neg (by simpa using hk)]
    by_cases hq : key h = q
    · rw [List.find?_cons_of_pos _ (by simp only [hkey]; simp [hq]),
        List.find?_cons_of_pos _ (by simp [hq]), Option.map_some']
    · rw [List.find?_cons_of_neg _ (by simp only [hkey]; simp [hq]),
        List.find?_cons_of_neg _ (by simp [hq])]
      exact ih

theorem findActiveCard_inv (db : DB) (cid : Nat) (cw : CardWithPrizes)
    (hc : findActiveCardWithPrizes db cid = some cw) :
    db.cards.find? (fun c => c.id == cid && c.is_active && !c.deleted) = some cw.card
    ∧ cw.card.id = cid ∧ cw.card ∈ db.cards := by
  unfold findActiveCardWithPrizes at hc
  cases hfind : db.cards.find? (fun c => c.id == cid && c.is_active && !c.deleted) with
  | none => rw [hfind] at hc; exact absurd hc (by simp)
  | some card =>
    rw [hfind] at hc
    injection hc with h
    have hcc : cw.card = card := by rw [← h]
    have hprops := List.find?_some hfind
    simp only [Bool.and_eq_true, beq_iff_eq] at hprops
    refine ⟨by rw [hcc], ?_, ?_⟩
    · rw [hcc]; exact hprops.1.1
    · rw [hcc]; exact List.mem_of_find?_eq_some hfind

/-- If a win did not carry a MONEY prize, the pre-computed `amountWon` is 0. -/
theorem amountWonOf_eq_zero (g : GameResult)
    (h : (g.isWinner && prizeIsMoney g.prize) = false) : amountWonOf g = 0 := by
  rw [amountWonOf]
  cases hp : g.prize with
  | none => rfl
  | some p =>
    cases hwin : g.isWinner with
    | false => simp
    | true =>
      rw [hp, hwin] at h
      simp only [Bool.true_and] at h
      simp [prizeIsMoney] at h
      simp [h]

/-- Forward evaluation of a successful play: under the pre-transaction
lookups and a sufficient balance, `playScratchCard` commits and returns the
fully determined database and game row. -/
theorem play_ok_eq (db : DB) (r : ℚ) (uid cid gid : Nat)
    (user : User) (wallet : Wallet) (wrest : List Wallet) (cw : CardWithPrizes)
    (n : Int) (m : License)
    (hu : findUser db uid = some user)
    (hw : userWallets db uid = wallet :: wrest)
    (hc : findActiveCardWithPrizes db cid = some cw)
    (hl : hasEnoughCredits db.licenses cw.card.price = .ok (.enough n m))
    (hbal : ¬ wallet.balance < cw.card.price)
    (hndc : (db.cards.map (fun c => c.id)).Nodup) :
    playScratchCard db r uid cid gid = .ok (
      { users := mapUserStats db.users uid (determineGameResult cw (some user) r).isWinner,
        wallets :=
          (if (determineGameResult cw (some user) r).isWinner
              && prizeIsMoney (determineGameResult cw (some user) r).prize then
            mapWallet (mapWallet db.wallets wallet.id (fun b => b - cw.card.price))
              wallet.id (fun b => b + amountWonOf (determineGameResult cw (some user) r))
          else mapWallet db.wallets wallet.id (fun b => b - cw.card.price)),
        cards :=
          (if user.is_influencer then
            mapCard db.cards cid (fun c =>
              { c with
                total_revenue := c.total_revenue + cw.card.price,
                total_payouts := c.total_payouts
                  + amountWonOf (determineGameResult cw (some user) r),
                total_games_played := c.total_games_played + 1 })
          else
            mapCard (mapCard db.cards cid (fun c =>
              { c with
                total_revenue := c.total_revenue + cw.card.price,
                total_payouts := c.total_payouts
                  + amountWonOf (determineGameResult cw (some user) r),
                total_games_played := c.total_games_played + 1 })) cid (fun c =>
              { c with current_rtp :=
                  (if cw.card.total_revenue + cw.card.price > 0 then
                    (cw.card.total_payouts
                        + amountWonOf (determineGameResult cw (some user) r))
                      / (cw.card.total_revenue + cw.card.price) * 100
                  else 0) })),
        prizes := db.prizes,
        games := db.games ++
          [{ id := gid, userId := uid, scratchCardId := cid,
             prizeId := prizeIdOf (determineGameResult cw (some user) r),
             is_winner := (determineGameResult cw (some user) r).isWinner,
             amount_won := amountWonOf (determineGameResult cw (some user) r),
             prize_type := prizeTypeOf (determineGameResult cw (some user) r),
             redemption_choice := false, status := .COMPLETED }],
        licenses := mapLicense db.licenses m.id (fun l =>
          { l with
            credits_used := l.credits_used + n,
            credits := l.credits - n,
            total_earnings := l.total_earnings
              + cw.card.price * (m.ggr_percentage / 100) }),
        usages := db.usages ++
          [{ userId := uid, licenseId := m.id, scratchCardId := cid, credits_used := n }] },
      { id := gid, userId := uid, scratchCardId := cid,
        prizeId := prizeIdOf (determineGameResult cw (some user) r),
        is_winner := (determineGameResult cw (some user) r).isWinner,
        amount_won := amountWonOf (determineGameResult cw (some user) r),
        prize_type := prizeTypeOf (determineGameResult cw (some user) r),
        redemption_choice := false, status := .COMPLETED }) := by
  obtain ⟨hfindc, hcid, hmemc⟩ := findActiveCard_inv db cid cw hc
  have hbase : db.cards.find? (fun c => c.id == cid) = some cw.card := by
    simpa only [hcid] using
      find?_key_of_mem_nodup (fun c => c.id) db.cards cw.card hmemc hndc
  have hfound : (mapCard db.cards cid (fun c =>
      { c with
        total_revenue := c.total_revenue + cw.card.price,
        total_payouts := c.total_payouts
          + amountWonOf (determineGameResult cw (some user) r),
        total_games_played := c.total_games_played + 1 })).find?
        (fun c => c.id == cid)
      = some { cw.card with
          total_revenue := cw.card.total_revenue + cw.card.price,
          total_payouts := cw.card.total_payouts
            + amountWonOf (determineGameResult cw (some user) r),
          total_games_played := cw.card.total_games_played + 1 } := by
    rw [mapCard, find?_map_keyed (fun c => c.id)
      (fun c =>
        { c with
          total_revenue := c.total_revenue + cw.card.price,
          total_payouts := c.total_payouts
            + amountWonOf (determineGameResult cw (some user) r),
          total_games_played := c.total_games_played + 1 })
      (fun c => rfl) cid cid db.cards, hbase, Option.map_some']
    rw [if_pos (by simp [hcid])]
  by_cases hinf : user.is_influencer
  · simp [playScratchCard, hu, hw, hc, hl, hbal, hinf, playTx, rtpStep,
      consumeCreditsAndAddEarnings, CreditCheckResult.success,
      Bind.bind, Except.bind, pure, Except.pure]
  · simp [playScratchCard, hu, hw, hc, hl, hbal, hinf, playTx, rtpStep, hfound,
      consumeCreditsAndAddEarnings, CreditCheckResult.success,
      Bind.bind, Except.bind, pure, Except.pure]

theorem find?_mapWallet (ws : List Wallet) (wid q : Nat) (f : ℚ → ℚ) :
    (mapWallet ws wid f).find? (fun w => w.id == q)
      = (ws.find? (fun w => w.id == q)).map
          (fun w => if w.id == wid then { w with balance := f w.balance } else w) := by
  rw [mapWallet]
  exact find?_map_keyed (fun w => w.id)
    (fun w => { w with balance := f w.balance }) (fun w => rfl) wid q ws

theorem find?_mapCard (cs : List ScratchCard) (i q : Nat)
    (F : ScratchCard → ScratchCard) (hF : ∀ c, (F c).id = c.id) :
    (mapCard cs i F).find? (fun c => c.id == q)
      = (cs.find? (fun c => c.id == q)).map (fun c => if c.id == i then F c else c) := by
  rw [mapCard]
  exact find?_map_keyed (fun c => c.id) F hF i q cs

/-! ## Claim C5 -/

/-- C5: when the wallet balance is below the product price, the play fails
with the insufficient-funds error (and, the embedding returning no new
state, no GameRecord is created and the balance is unchanged); and whenever
a play commits, the price was covered (`price ≤ balance`, so the debit never
drives the balance negative) and the new balance is exactly
`balance − price + amount_won`. -/
theorem play_insufficient_funds (db : DB) (r : ℚ) (uid cid gid : Nat)
    (user : User) (wallet : Wallet) (wrest : List Wallet) (cw : CardWithPrizes)
    (check : CreditCheckResult)
    (hu : findUser db uid = some user)
    (hw : userWallets db uid = wallet :: wrest)
    (hc : findActiveCardWithPrizes db cid = some cw)
    (hl : hasEnoughCredits db.licenses cw.card.price = .ok check)
    (hsucc : check.success = true)
    (hndw : (db.wallets.map (fun w => w.id)).Nodup)
    (hndc : (db.cards.map (fun c => c.id)).Nodup) :
    (wallet.balance < cw.card.price →
      playScratchCard db r uid cid gid = .error .insufficientFunds)
    ∧ (∀ db' game, playScratchCard db r uid cid gid = .ok (db', game) →
        cw.card.price ≤ wallet.balance
        ∧ db'.wallets.find? (fun w => w.id == wallet.id)
            = some { wallet with
                balance := wallet.balance - cw.card.price + game.amount_won }) := by
  obtain ⟨n, m, rfl⟩ : ∃ n m, check = .enough n m := by
    cases check with
    | inactive l => simp [CreditCheckResult.success] at hsucc
    | insufficient k l => simp [CreditCheckResult.success] at hsucc
    | enough k l => exact ⟨k, l, rfl⟩
  have herr : wallet.balance < cw.card.price →
      playScratchCard db r uid cid gid = .error .insufficientFunds := by
    intro hbal
    simp [playScratchCard, hu, hw, hc, hl, hbal, CreditCheckResult.success]
  refine ⟨herr, ?_⟩
  intro db' game hok
  by_cases hbal : wallet.balance < cw.card.price
  · rw [herr hbal] at hok
    exact absurd hok (by simp)
  · have heq := play_ok_eq db r uid cid gid user wallet wrest cw n m
      hu hw hc hl hbal hndc
    rw [heq] at hok
    injection hok with hok
    injection hok with hdb hgame
    subst hdb
    subst hgame
    refine ⟨not_lt.mp hbal, ?_⟩
    have hwmem : wallet ∈ db.wallets := by
      have : wallet ∈ userWallets db uid := by
        rw [hw]; exact List.mem_cons_self _ _
      exact List.mem_of_mem_filter this
    have hwbase : db.wallets.find? (fun w => w.id == wallet.id) = some wallet := by
      simpa using find?_key_of_mem_nodup (fun w => w.id) db.wallets wallet hwmem hndw
    cases hmoney : ((determineGameResult cw (some user) r).isWinner
        && prizeIsMoney (determineGameResult cw (some user) r).prize) with
    | true =>
      simp only [hmoney, if_true, reduceIte]
      rw [find?_mapWallet, find?_mapWallet, hwbase, Option.map_some', Option.map_some']
      rw [if_pos (by simp)]
      simp
    | false =>
      simp only [hmoney, Bool.false_eq_true, if_false, reduceIte]
      rw [find?_mapWallet, hwbase, Option.map_some']
      rw [if_pos (by simp)]
      rw [amountWonOf_eq_zero _ hmoney, add_zero]

/-! ## Claim C6 -/

/-- C6: a committed play increments the stored product totals by the price
and the amount won (one more game played); a privileged (influencer) play
leaves `current_rtp` untouched, while a non-privileged play sets it to
`total_payouts / total_revenue × 100` over the post-update totals (0 when
the updated revenue is not positive). -/
theorem play_rtp_update_rule (db : DB) (r : ℚ) (uid cid gid : Nat)
    (user : User) (wallet : Wallet) (wrest : List Wallet) (cw : CardWithPrizes)
    (check : CreditCheckResult)
    (hu : findUser db uid = some user)
    (hw : userWallets db uid = wallet :: wrest)
    (hc : findActiveCardWithPrizes db cid = some cw)
    (hl : hasEnoughCredits db.licenses cw.card.price = .ok check)
    (hsucc : check.success = true)
    (hndc : (db.cards.map (fun c => c.id)).Nodup) :
    ∀ db' game, playScratchCard db r uid cid gid = .ok (db', game) →
      ∀ c', db'.cards.find? (fun c => c.id == cid) = some c' →
        c'.total_revenue = cw.card.total_revenue + cw.card.price
        ∧ c'.total_payouts = cw.card.total_payouts + game.amount_won
        ∧ c'.total_games_played = cw.card.total_games_played + 1
        ∧ (user.is_influencer = true → c'.current_rtp = cw.card.current_rtp)
        ∧ (user.is_influencer = false →
            c'.current_rtp = (if cw.card.total_revenue + cw.card.price > 0 then
              (cw.card.total_payouts + game.amount_won)
                / (cw.card.total_revenue + cw.card.price) * 100
            else 0)) := by
  obtain ⟨n, m, rfl⟩ : ∃ n m, check = .enough n m := by
    cases check with
    | inactive l => simp [CreditCheckResult.success] at hsucc
    | insufficient k l => simp [CreditCheckResult.success] at hsucc
    | enough k l => exact ⟨k, l, rfl⟩
  intro db' game hok
  by_cases hbal : wallet.balance < cw.card.price
  · have herr : playScratchCard db r uid cid gid = .error .insufficientFunds := by
      simp [playScratchCard, hu, hw, hc, hl, hbal, CreditCheckResult.success]
    rw [herr] at hok
    exact absurd hok (by simp)
  · have heq := play_ok_eq db r uid cid gid user wallet wrest cw n m
      hu hw hc hl hbal hndc
    rw [heq] at hok
    injection hok with hok
    injection hok with hdb hgame
    subst hdb
    subst hgame
    intro c' hfindc'
    obtain ⟨hfindcard, hcid, hmemc⟩ := findActiveCard_inv db cid cw hc
    have hbase : db.cards.find? (fun c => c.id == cid) = some cw.card := by
      simpa only [hcid] using
        find?_key_of_mem_nodup (fun c => c.id) db.cards cw.card hmemc hndc
    by_cases hinf : user.is_influencer
    · rw [hinf] at hfindc'
      simp only [if_true, reduceIte] at hfindc'
      rw [find?_mapCard db.cards cid cid
        (fun c =>
          { c with
            total_revenue := c.total_revenue + cw.card.price,
            total_payouts := c.total_payouts
              + amountWonOf (determineGameResult cw (some user) r),
            total_games_played := c.total_games_played + 1 })
        (fun c => rfl), hbase, Option.map_some'] at hfindc'
      rw [if_pos (by simp [hcid])] at hfindc'
      injection hfindc' with hc'
      subst hc'
      refine ⟨rfl, rfl, rfl, fun _ => rfl, fun hcontra => ?_⟩
      rw [hinf] at hcontra
      exact absurd hcontra (by simp)
    · rw [eq_false_of_ne_true hinf] at hfindc'
      simp only [Bool.false_eq_true, if_false, reduceIte] at hfindc'
      rw [find?_mapCard (mapCard db.cards cid
          (fun c =>
            { c with
              total_revenue := c.total_revenue + cw.card.price,
              total_payouts := c.total_payouts
                + amountWonOf (determineGameResult cw (some user) r),
              total_games_played := c.total_games_played + 1 })) cid cid
        (fun c =>
          { c with current_rtp :=
              (if cw.card.total_revenue + cw.card.price > 0 then
                (cw.card.total_payouts
                    + amountWonOf (determineGameResult cw (some user) r))
                  / (cw.card.total_revenue + cw.card.price) * 100
              else 0) })
        (fun c => rfl),
        find?_mapCard db.cards cid cid
        (fun c =>
          { c with
            total_revenue := c.total_revenue + cw.card.price,
            total_payouts := c.total_payouts
              + amountWonOf (determineGameResult cw (some user) r),
            total_games_played := c.total_games_played + 1 })
        (fun c => rfl), hbase, Option.map_some', Option.map_some'] at hfindc'
      rw [if_pos (by simp [hcid]), if_pos (by simp [hcid])] at hfindc'
      injection hfindc' with hc'
      subst hc'
      exact ⟨rfl, rfl, rfl, fun hcontra => absurd hcontra hinf, fun _ => rfl⟩

/-- C5 witness database: like `exDBC1` but with balance 1/2 against price 1. -/
def exDBC5 : DB :=
  { exDBC1 with wallets := [{ id := 5, userId := 10, balance := 1/2 }] }

/-- C5 witness: with balance 0.50 and price 1.00 the play fails with the
insufficient-funds error. -/
theorem play_insufficient_funds_witness :
    (1 : ℚ)/2 < 1
    ∧ playScratchCard exDBC5 50 10 20 99 = .error .insufficientFunds := by
  have hl : hasEnoughCredits
      [{ id := 1, credits := 5, credits_used := 0, credits_value := 1,
         ggr_percentage := 10, total_earnings := 0, is_active := true }] 1
      = .ok (.enough 1
          { id := 1, credits := 5, credits_used := 0, credits_value := 1,
            ggr_percentage := 10, total_earnings := 0, is_active := true }) := by
    norm_num [hasEnoughCredits, getCurrentLicense, creditsNeededFor,
      Bind.bind, Except.bind, pure, Except.pure]
  have h := play_insufficient_funds exDBC5 50 10 20 99
    { id := 10, is_influencer := false, total_scratchs := 0,
      total_wins := 0, total_losses := 0 }
    { id := 5, userId := 10, balance := 1/2 } []
    { card := { id := 20, name := "Card", price := 1, target_rtp := 85,
                current_rtp := 0, total_revenue := 0, total_payouts := 0,
                total_games_played := 0, is_active := true, deleted := false },
      prizes := [] }
    (.enough 1
      { id := 1, credits := 5, credits_used := 0, credits_value := 1,
        ggr_percentage := 10, total_earnings := 0, is_active := true })
    rfl rfl rfl hl rfl (by simp [exDBC5, exDBC1]) (by simp [exDBC5, exDBC1])
  exact ⟨by norm_num, h.1 (by norm_num)⟩

/-- The game row created by the successful C6 witness play (a loss). -/
def exPlayedGameC6 : Game :=
  { id := 99, userId := 10, scratchCardId := 20, prizeId := none,
    is_winner := false, amount_won := 0, prize_type := none,
    redemption_choice := false, status := .COMPLETED }

/-- The database after the successful C6 witness play on `exDBC1`: wallet
debited to 9, stats updated, RTP recomputed to 0, one license credit
consumed with 10% GGR earnings, one usage row. -/
def exPlayedDBC6 : DB :=
  { users := [{ id := 10, is_influencer := false, total_scratchs := 1,
                total_wins := 0, total_losses := 1 }],
    wallets := [{ id := 5, userId := 10, balance := 9 }],
    cards := [{ id := 20, name := "Card", price := 1, target_rtp := 85,
                current_rtp := 0, total_revenue := 1, total_payouts := 0,
                total_games_played := 1, is_active := true, deleted := false }],
    prizes := [],
    games := [exPlayedGameC6],
    licenses := [{ id := 1, credits := 4, credits_used := 1, credits_value := 1,
                   ggr_percentage := 10, total_earnings := 1/10, is_active := true }],
    usages := [{ userId := 10, licenseId := 1, scratchCardId := 20, credits_used := 1 }] }

/-- C6 witness: the concrete non-privileged play on `exDBC1` commits, and
the updated card row carries the recomputed RTP of the post-update totals. -/
theorem play_rtp_update_rule_witness :
    playScratchCard exDBC1 50 10 20 99 = .ok (exPlayedDBC6, exPlayedGameC6)
    ∧ (0 : ℚ) = (if (0 : ℚ) + 1 > 0 then ((0 : ℚ) + 0) / ((0 : ℚ) + 1) * 100 else 0) := by
  have hl : hasEnoughCredits
      [{ id := 1, credits := 5, credits_used := 0, credits_value := 1,
         ggr_percentage := 10, total_earnings := 0, is_active := true }] 1
      = .ok (.enough 1
          { id := 1, credits := 5, credits_used := 0, credits_value := 1,
            ggr_percentage := 10, total_earnings := 0, is_active := true }) := by
    norm_num [hasEnoughCredits, getCurrentLicense, creditsNeededFor,
      Bind.bind, Except.bind, pure, Except.pure]
  have hok : playScratchCard exDBC1 50 10 20 99 = .ok (exPlayedDBC6, exPlayedGameC6) := by
    have heq := play_ok_eq exDBC1 50 10 20 99
      { id := 10, is_influencer := false, total_scratchs := 0,
        total_wins := 0, total_losses := 0 }
      { id := 5, userId := 10, balance := 10 } []
      { card := { id := 20, name := "Card", price := 1, target_rtp := 85,
                  current_rtp := 0, total_revenue := 0, total_payouts := 0,
                  total_games_played := 0, is_active := true, deleted := false },
        prizes := [] } 1
      { id := 1, credits := 5, credits_used := 0, credits_value := 1,
        ggr_percentage := 10, total_earnings := 0, is_active := true }
      rfl rfl rfl hl (by norm_num) (by simp [exDBC1])
    rw [heq]
    norm_num [exDBC1, exPlayedDBC6, exPlayedGameC6, determineGameResult,
      amountWonOf, prizeIdOf, prizeTypeOf, prizeIsMoney, isInfluencerUser,
      mapUserStats, mapWallet, mapCard, mapLicense]
  have h := play_rtp_update_rule exDBC1 50 10 20 99
    { id := 10, is_influencer := false, total_scratchs := 0,
      total_wins := 0, total_losses := 0 }
    { id := 5, userId := 10, balance := 10 } []
    { card := { id := 20, name := "Card", price := 1, target_rtp := 85,
                current_rtp := 0, total_revenue := 0, total_payouts := 0,
                total_games_played := 0, is_active := true, deleted := false },
      prizes := [] }
    (.enough 1
      { id := 1, credits := 5, credits_used := 0, credits_value := 1,
        ggr_percentage := 10, total_earnings := 0, is_active := true })
    rfl rfl rfl hl rfl (by simp [exDBC1])
    exPlayedDBC6 exPlayedGameC6 hok
    { id := 20, name := "Card", price := 1, target_rtp := 85,
      current_rtp := 0, total_revenue := 1, total_payouts := 0,
      total_games_played := 1, is_active := true, deleted := false } rfl
  exact ⟨hok, h.2.2.2.2 rfl⟩

/-! ## Claim C9 -/

theorem validateProbability_ok (q : ℚ) (h : validateProbability q = .ok ()) :
    0 ≤ q ∧ q ≤ 100 := by
  rw [validateProbability] at h
  by_cases hcond : q < 0 ∨ q > 100
  · rw [if_pos hcond] at h
    exact absurd h (by simp)
  · push_neg at hcond
    exact hcond

theorem validatePrizeData_prob (p : PrizeData) (h : validatePrizeData p = .ok ()) :
    0 ≤ p.probability ∧ p.probability ≤ 100 := by
  rw [validatePrizeData] at h
  by_cases hname : p.name.length < 2
  · rw [if_pos hname] at h
    exact absurd h (by simp)
  · rw [if_neg hname] at h
    cases hvt : validatePrizeType p.type with
    | error e =>
      rw [hvt] at h
      exact absurd h (by simp)
    | ok w =>
      rw [hvt] at h
      cases hvp : validateProbability p.probability with
      | error e =>
        rw [hvp] at h
        exact absurd h (by simp)
      | ok w2 =>
        cases w2
        exact validateProbability_ok p.probability hvp

theorem validatePrizeList_ok :
    ∀ ps : List PrizeData, validatePrizeList ps = .ok () →
      ∀ p ∈ ps, validatePrizeData p = .ok () := by
  intro ps
  induction ps with
  | nil =>
    intro h p hp
    simp at hp
  | cons q t ih =>
    intro h p hp
    rw [validatePrizeList] at h
    obtain ⟨w, h1, h2⟩ := except_bind_ok _ _ _ h
    rcases List.mem_cons.mp hp with rfl | hp
    · cases w; exact h1
    · exact ih h2 p hp

theorem validatePrizesData_ok (ps : List PrizeData)
    (h : validatePrizesData ps = .ok ()) :
    (ps.map (fun p => p.probability)).sum ≤ 100
      ∧ ∀ p ∈ ps, 0 ≤ p.probability := by
  rw [validatePrizesData] at h
  by_cases h0 : ps = []
  · rw [if_pos h0] at h
    exact absurd h (by simp)
  · rw [if_neg h0] at h
    by_cases h20 : ps.length > 20
    · rw [if_pos h20] at h
      exact absurd h (by simp)
    · rw [if_neg h20] at h
      cases hvl : validatePrizeList ps with
      | error e =>
        rw [hvl] at h
        exact absurd h (by simp)
      | ok w =>
        rw [hvl] at h
        cases w
        constructor
        · by_cases hsum : (ps.map (fun p => p.probability)).sum > 100
          · rw [if_pos hsum] at h
            exact absurd h (by simp)
          · exact not_lt.mp hsum
        · intro p hp
          exact (validatePrizeData_prob p (validatePrizeList_ok ps hvl p hp)).1

theorem mkPrizeRows_active_sum_le (cid : Nat) :
    ∀ (ps : List PrizeData) (nid : Nat), (∀ p ∈ ps, 0 ≤ p.probability) →
      (((mkPrizeRows cid nid ps).filter
          (fun p => p.scratchCardId == cid && p.is_active)).map
        (fun p => p.probability)).sum
        ≤ (ps.map (fun p => p.probability)).sum := by
  intro ps
  induction ps with
  | nil =>
    intro nid hnn
    simp [mkPrizeRows]
  | cons a t ih =>
    intro nid hnn
    have hnn' : ∀ p ∈ t, 0 ≤ p.probability :=
      fun p hp => hnn p (List.mem_cons_of_mem a hp)
    have ha : 0 ≤ a.probability := hnn a (List.mem_cons_self a t)
    rw [mkPrizeRows]
    by_cases hact : a.is_active.getD true
    · rw [List.filter_cons_of_pos (by simp [mkPrizeRow, hact])]
      rw [List.map_cons, List.sum_cons, List.map_cons, List.sum_cons]
      exact add_le_add_left (ih (nid + 1) hnn') _
    · rw [List.filter_cons_of_neg (by simp [mkPrizeRow, hact])]
      rw [List.map_cons, List.sum_cons]
      exact le_trans (ih (nid + 1) hnn') (le_add_of_nonneg_left ha)

/-- C9 amended (positive half): card creation does validate the provided
prize list, so a freshly created card satisfies the ≤ 100 active-probability
invariant. -/
theorem create_enforces_probability_invariant (db : DB) (data : ScratchCardData)
    (ps : List PrizeData) (newCardId firstPrizeId : Nat)
    (hfresh : ∀ p ∈ db.prizes, p.scratchCardId ≠ newCardId)
    (db' : DB) (card : ScratchCard)
    (hok : createScratchCardWithPrizes db data ps newCardId firstPrizeId
      = .ok (db', card)) :
    activeProbSum db' card.id ≤ 100 := by
  rw [createScratchCardWithPrizes] at hok
  cases hv1 : validateScratchCardData data with
  | error e =>
    rw [hv1] at hok
    exact absurd hok (by simp)
  | ok w1 =>
    rw [hv1] at hok
    cases hv2 : validatePrizesData ps with
    | error e =>
      rw [hv2] at hok
      exact absurd hok (by simp)
    | ok w2 =>
      rw [hv2] at hok
      cases w1
      cases w2
      obtain ⟨hsum, hnn⟩ := validatePrizesData_ok ps hv2
      injection hok with hpair
      injection hpair with hdb hcard
      subst hdb
      subst hcard
      rw [activeProbSum]
      show (((db.prizes ++ mkPrizeRows newCardId firstPrizeId ps).filter
          (fun p => p.scratchCardId == newCardId && p.is_active)).map
        (fun p => p.probability)).sum ≤ 100
      rw [List.filter_append]
      have hold : db.prizes.filter
          (fun p => p.scratchCardId == newCardId && p.is_active) = [] := by
        rw [List.filter_eq_nil_iff]
        intro p hp
        simp [hfresh p hp]
      rw [hold, List.nil_append]
      exact le_trans (mkPrizeRows_active_sum_le newCardId ps firstPrizeId hnn) hsum

/-- Database for the C9 counterexample: one card whose single active prize
already has probability 100. -/
def exDBC9 : DB :=
  { users := [], wallets := [],
    cards := [{ id := 1, name := "Card", price := 1, target_rtp := 85,
                current_rtp := 0, total_revenue := 0, total_payouts := 0,
                total_games_played := 0, is_active := true, deleted := false }],
    prizes := [{ id := 1, scratchCardId := 1, name := "Cash", type := "MONEY",
                 value := some 10, product_name := none, redemption_value := none,
                 probability := 100, is_active := true }],
    games := [], licenses := [], usages := [] }

/-- The prize added in the C9 counterexample: individually valid
(probability 100 ∈ [0,100]), but pushing the card's active sum to 200. -/
def exPrizeDataC9 : PrizeData :=
  { name := "TV", type := "PRODUCT", value := none, product_name := some "TV Box",
    redemption_value := some 50, probability := 100, is_active := some true }

/-- C9 counterexample: the ≤ 100 invariant holds before, yet
`addPrizeToScratchCard` accepts a second active probability-100 prize — it
validates only the new prize, never the sum — leaving the card with an
active-probability sum of 200. -/
theorem addPrize_breaks_probability_invariant :
    activeProbSum exDBC9 1 ≤ 100
    ∧ (addPrizeToScratchCard exDBC9 1 exPrizeDataC9 2).toOption.map
        (fun res => activeProbSum res.1 1) = some 200
    ∧ ¬ ((200 : ℚ) ≤ 100) := by
  refine ⟨by norm_num [activeProbSum, exDBC9], ?_, by norm_num⟩
  have hname : ("TV".length < 2) = False := by decide
  have hpn : (("TV Box".length < 2) = False) := by decide
  norm_num +decide [addPrizeToScratchCard, validatePrizeData, validatePrizeType,
    validateProbability, mkPrizeRow, activeProbSum, exDBC9, exPrizeDataC9,
    hname, hpn, Bind.bind, Except.bind, pure, Except.pure, Except.toOption]

/-- Card data for the C9 witness creation. -/
def exCardDataC9 : ScratchCardData :=
  { name := "Mega Card", description := "A scratch card with prizes.",
    price := 10, target_rtp := 85, is_active := none }

/-- Prize inputs for the C9 witness creation (probabilities 60 + 40 = 100). -/
def exPrizesDataC9 : List PrizeData :=
  [ { name := "Cash", type := "MONEY", value := some 5, product_name := none,
      redemption_value := none, probability := 60, is_active := some true },
    { name := "TV", type := "PRODUCT", value := none, product_name := some "TV Box",
      redemption_value := some 100, probability := 40, is_active := some true } ]

/-- The card row created by the C9 witness. -/
def exCreatedCardC9 : ScratchCard :=
  { id := 7, name := "Mega Card", price := 10, target_rtp := 85, current_rtp := 0,
    total_revenue := 0, total_payouts := 0, total_games_played := 0,
    is_active := true, deleted := false }

/-- The database after the C9 witness creation. -/
def exCreatedDBC9 : DB :=
  { exDBC9 with
    cards := exDBC9.cards ++ [exCreatedCardC9],
    prizes := exDBC9.prizes ++
      [ { id := 8, scratchCardId := 7, name := "Cash", type := "MONEY",
          value := some 5, product_name := none, redemption_value := none,
          probability := 60, is_active := true },
        { id := 9, scratchCardId := 7, name := "TV", type := "PRODUCT",
          value := none, product_name := some "TV Box",
          redemption_value := some 100, probability := 40, is_active := true } ] }

/-- C9 witness: a concrete successful creation whose created card satisfies
the invariant. -/
theorem create_enforces_probability_invariant_witness :
    createScratchCardWithPrizes exDBC9 exCardDataC9 exPrizesDataC9 7 8
        = .ok (exCreatedDBC9, exCreatedCardC9)
    ∧ activeProbSum exCreatedDBC9 exCreatedCardC9.id ≤ 100 := by
  have hok : createScratchCardWithPrizes exDBC9 exCardDataC9 exPrizesDataC9 7 8
      = .ok (exCreatedDBC9, exCreatedCardC9) := by
    norm_num +decide [createScratchCardWithPrizes, validateScratchCardData,
      validatePrice, validateTargetRtp, validatePrizesData, validatePrizeList,
      validatePrizeData, validatePrizeType, validateProbability, mkPrizeRows,
      mkPrizeRow, exDBC9, exCardDataC9, exPrizesDataC9, exCreatedDBC9,
      exCreatedCardC9, Bind.bind, Except.bind, pure, Except.pure]
  exact ⟨hok, create_enforces_probability_invariant exDBC9 exCardDataC9
    exPrizesDataC9 7 8 (by simp +decide [exDBC9]) exCreatedDBC9 exCreatedCardC9 hok⟩

end Backend
